import Mathlib

/-!
Verification of the electrical network simulation engine of the BoatApp
repository (src/utils/calculations.ts, simulation-engine section).

Modelling conventions (shallow embedding):
* JavaScript numbers are modelled as rationals (ℚ).  All arithmetic in the
  engine is +, -, *, /, min, max, abs and comparisons, which are exact on the
  values exercised here.  Division by zero yields 0 in ℚ (JS would give
  Infinity/NaN); no claim below depends on a division by zero.
* JavaScript objects with optional fields are structures with Option fields;
  `a || b` on numbers is `jsOr` (0 and undefined are falsy), `a ?? b` is
  `Option.getD`.
* `Record<string, T>` / `Map<string, T>` values built by keyed insertion are
  modelled as functions `String → Option T` updated pointwise.
* Status tags and categories are the literal strings used by the code.
* `Array.prototype.sort` with an id comparator is modelled as a stable
  insertion sort on the id (the ids compared in the engine are plain ASCII,
  where localeCompare agrees with code-unit order).
* Number-to-string conversions (template literals and toFixed) are modelled
  by exact decimal printing of the rational values, matching ECMAScript
  output on the terminating decimals that occur in the engine.
-/

/-! ## JavaScript helpers -/

/-- JS `v || d` for an optional number: 0 and undefined are falsy. -/
def jsOr (v : Option ℚ) (d : ℚ) : ℚ :=
  match v with
  | some x => if x = 0 then d else x
  | none => d

/-- JS `v || d` for an optional string: the empty string and undefined are falsy. -/
def jsOrStr (v : Option String) (d : String) : String :=
  match v with
  | some s => if s = "" then d else s
  | none => d

/-- JS `v || d` for a present string (empty string is falsy). -/
def jsOrStr2 (v : String) (d : String) : String :=
  if v = "" then d else v

/-- Decimal digits of a natural number, as a string. -/
def natToStr (n : ℕ) : String := String.mk (Nat.toDigits 10 n)

/-- Decimal representation of an integer. -/
def intToStr (i : ℤ) : String :=
  if i < 0 then "-" ++ natToStr i.natAbs else natToStr i.natAbs

/-- ECMAScript `Number.prototype.toFixed(d)`: round to d decimals, ties toward
+∞, and print with exactly d fractional digits. -/
def toFixedQ (d : ℕ) (q : ℚ) : String :=
  let n : ℤ := Rat.floor (q * (10 : ℚ) ^ d + 1 / 2)
  let sign := if n < 0 then "-" else ""
  let m := n.natAbs
  if d = 0 then sign ++ natToStr m
  else
    let ip := m / 10 ^ d
    let fp := m % 10 ^ d
    let fs0 := natToStr fp
    let fs := String.mk (List.replicate (d - fs0.length) '0') ++ fs0
    sign ++ natToStr ip ++ "." ++ fs

/-- ECMAScript number-to-string (template literal) for the rationals that occur
in the engine: integers print without a fraction, terminating decimals print
with the minimal number of fractional digits. -/
def qToStr (q : ℚ) : String :=
  if q.den = 1 then intToStr q.num
  else
    match (List.range 10).find? (fun j => 10 ^ (j + 1) % q.den = 0) with
    | some j =>
      let k := j + 1
      let mult : ℕ := 10 ^ k / q.den
      let n : ℤ := q.num * (mult : ℤ)
      let sign := if n < 0 then "-" else ""
      let m := n.natAbs
      let ip := m / 10 ^ k
      let fp := m % 10 ^ k
      let fs0 := natToStr fp
      let fs := String.mk (List.replicate (k - fs0.length) '0') ++ fs0
      sign ++ natToStr ip ++ "." ++ fs
    | none => intToStr q.num ++ "/" ++ natToStr q.den

/-- ASCII lower-casing of one character (JS toLowerCase on the labels used). -/
def lowerChar (c : Char) : Char :=
  if 65 ≤ c.toNat ∧ c.toNat ≤ 90 then Char.ofNat (c.toNat + 32) else c

/-- ASCII lower-casing of a string. -/
def lowerStr (s : String) : String := String.mk (s.data.map lowerChar)

/-- Whether the character list starts with the given pattern. -/
def charsStartWith : List Char → List Char → Bool
  | [], _ => true
  | _ :: _, [] => false
  | a :: as, b :: bs => a == b && charsStartWith as bs

/-- Whether the needle occurs as a contiguous sublist of the haystack. -/
def charsContains : List Char → List Char → Bool
  | [], needle => needle.isEmpty
  | h :: t, needle => charsStartWith needle (h :: t) || charsContains t needle

/-- JS `s.includes(sub)`. -/
def strIncludes (s : String) (sub : String) : Bool :=
  charsContains s.data sub.data

/-! ## Data model (mirrors `types/electrical.ts` and the engine interfaces) -/

/-- ComponentSpec: the static spec of a component (only the fields the
simulation engine reads).  Optional numeric fields are `Option ℚ`. -/
structure ComponentSpec where
  type : String
  category : String
  voltage : ℚ := 12
  maxCurrent : Option ℚ := none
  capacity : Option ℚ := none
  rating : Option ℚ := none
  chargeRate : Option ℚ := none
  efficiency : Option ℚ := none
  batteryChemistry : Option String := none
  batteryRole : Option String := none
  wattage : Option ℚ := none
  vmp : Option ℚ := none
  imp : Option ℚ := none
  voc : Option ℚ := none
  panelCount : Option ℚ := none
  arrayConfig : Option String := none
  maxSolarWattage : Option ℚ := none
  maxSolarCurrent : Option ℚ := none
  alternatorInputMin : Option ℚ := none
  alternatorInputMax : Option ℚ := none
  solarInputMin : Option ℚ := none
  solarInputMax : Option ℚ := none
  maxInputVoltage : Option ℚ := none
  maxOutputPower : Option ℚ := none
  traditionalAltMin : Option ℚ := none
  tempCompNonLithium : Option ℚ := none
  tempCompLithium : Option ℚ := none
  outputVoltageMin : Option ℚ := none
  outputVoltageMax : Option ℚ := none
  deriving DecidableEq

/-- The user-entered override map `customValues` (only the keys the engine
reads). -/
structure CustomValues where
  wattage : Option ℚ := none
  vmp : Option ℚ := none
  imp : Option ℚ := none
  voc : Option ℚ := none
  panelCount : Option ℚ := none
  arrayConfig : Option String := none
  capacity : Option ℚ := none
  batteryChemistry : Option String := none
  maxCurrent : Option ℚ := none
  chargeRate : Option ℚ := none
  rating : Option ℚ := none
  isOn : Option Bool := none
  isBlown : Option Bool := none
  deriving DecidableEq

/-- A diagram node as the engine sees it: id, label, spec and overrides. -/
structure SimNode where
  id : String
  label : String
  spec : ComponentSpec
  customValues : CustomValues := {}
  deriving DecidableEq

/-- A wire: undirected logical connection given as source/target ids. -/
structure SimEdge where
  id : String
  source : String
  target : String
  deriving DecidableEq

/-- NodeSimState of the engine (all optional fields as in the interface). -/
structure NodeSimState where
  voltage : ℚ := 0
  current : ℚ := 0
  power : ℚ := 0
  state : String := "idle"
  stateOfCharge : Option ℚ := none
  efficiency : Option ℚ := none
  inputVoltage : Option ℚ := none
  outputVoltage : Option ℚ := none
  inputCurrent : Option ℚ := none
  outputCurrent : Option ℚ := none
  solarInputPower : Option ℚ := none
  alternatorInputPower : Option ℚ := none
  chargeStage : Option String := none
  dcDcActive : Option Bool := none
  activationThreshold : Option ℚ := none
  tempCompensation : Option ℚ := none
  maxOutputPower : Option ℚ := none
  compensatedBulkVoltage : Option ℚ := none
  compensatedFloatVoltage : Option ℚ := none
  deriving DecidableEq

/-- ConnectionState of the engine. -/
structure ConnectionState where
  id : String
  sourceId : String
  targetId : String
  voltage : ℚ
  current : ℚ
  power : ℚ
  voltageDrop : ℚ
  isActive : Bool
  deriving DecidableEq

/-- SystemSimulation: the per-tick result. -/
structure SystemSimulation where
  systemVoltage : ℚ
  totalLoad : ℚ
  totalGeneration : ℚ
  netPower : ℚ
  nodes : String → Option NodeSimState
  connections : String → Option ConnectionState
  warnings : List String
  errors : List String

/-- EnvironmentState supplied by the caller each tick. -/
structure EnvironmentState where
  solarIrradiance : ℚ
  ambientTemp : ℚ
  engineRunning : Bool
  alternatorRPM : ℚ
  shoreConnected : Bool

/-- Raw output triple of a power source. -/
structure SourceOut where
  voltage : ℚ
  current : ℚ
  power : ℚ
  deriving DecidableEq

/-! ## Source resolver -/

/-- calculateSolarOutput: nameplate wattage scaled by irradiance/1000 at Vmp. -/
def calculateSolarOutput (spec : ComponentSpec) (irradiance : ℚ)
    (cv : CustomValues) : SourceOut :=
  let efficiencyFactor := irradiance / 1000
  let wattage := (jsOr cv.wattage (jsOr spec.wattage 100)) * efficiencyFactor
  let vmp := jsOr cv.vmp (jsOr spec.vmp 18)
  { voltage := vmp, current := wattage / vmp, power := wattage }

/-- calculateSolarArrayOutput: per-panel law combined by series/parallel
configuration. -/
def calculateSolarArrayOutput (spec : ComponentSpec) (irradiance : ℚ)
    (cv : CustomValues) : SourceOut :=
  let efficiencyFactor := irradiance / 1000
  let wattagePerPanel := jsOr cv.wattage (jsOr spec.wattage 100)
  let panelCount := jsOr cv.panelCount (jsOr spec.panelCount 2)
  let arrayConfig := jsOrStr cv.arrayConfig (jsOrStr spec.arrayConfig "parallel")
  let vmp := jsOr cv.vmp (jsOr spec.vmp 18)
  let imp := jsOr cv.imp (jsOr spec.imp 5.56)
  let totalWattage := wattagePerPanel * panelCount * efficiencyFactor
  if arrayConfig = "series" then
    { voltage := vmp * panelCount, current := imp * efficiencyFactor, power := totalWattage }
  else
    { voltage := vmp, current := imp * panelCount * efficiencyFactor, power := totalWattage }

/-- calculateAlternatorOutput: zero below 800 RPM, then linear ramp to full
rated current at 2000 RPM, at a fixed 14.4 V. -/
def calculateAlternatorOutput (spec : ComponentSpec) (rpm : ℚ) : SourceOut :=
  if rpm < 800 then { voltage := 0, current := 0, power := 0 }
  else
    let outputFactor := min 1 ((rpm - 800) / 1200)
    let maxCurrent := jsOr spec.maxCurrent 100
    let current := maxCurrent * outputFactor
    { voltage := 14.4, current := current, power := 14.4 * current }

/-! ## Battery chemistry profiles -/

/-- ChargingProfile record per chemistry. -/
structure ChargingProfile where
  bulkVoltage : ℚ
  floatVoltage : ℚ
  maxDischargePercent : ℚ
  maxChargeRate : ℚ
  voltageAtFull : ℚ
  voltageAtEmpty : ℚ
  voltageAt50 : ℚ
  deriving DecidableEq

/-- The CHARGING_PROFILES table; unknown keys fall back to lead-acid. -/
def profileFor (key : String) : ChargingProfile :=
  if key = "lead-acid" then ⟨14.4, 13.6, 50, 0.2, 12.7, 11.8, 12.2⟩
  else if key = "agm" then ⟨14.7, 13.8, 50, 0.3, 12.8, 11.8, 12.3⟩
  else if key = "gel" then ⟨14.1, 13.5, 50, 0.2, 12.8, 11.8, 12.3⟩
  else if key = "lithium" then ⟨14.2, 0, 20, 0.5, 13.6, 12.0, 13.2⟩
  else if key = "lifepo4" then ⟨14.2, 0, 10, 1.0, 13.6, 12.0, 13.2⟩
  else ⟨14.4, 13.6, 50, 0.2, 12.7, 11.8, 12.2⟩

/-- getChargingProfile: `CHARGING_PROFILES[chemistry || lead-acid] || lead-acid`. -/
def getChargingProfile (chemistry : String) : ChargingProfile :=
  profileFor (jsOrStr2 chemistry "lead-acid")

/-! ## Battery model -/

/-- Result of calculateBatteryState. -/
structure BatteryState where
  voltage : ℚ
  stateOfCharge : ℚ
  state : String
  deriving DecidableEq

/-- The charge/discharge/idle hysteresis of calculateBatteryState:
enter threshold 1.0 from idle, exit threshold 0.3 from charging/discharging. -/
def batteryStatus (previousState : Option String) (netCurrent : ℚ) : String :=
  if previousState = some "charging" then
    if netCurrent > 0.3 then "charging"
    else if netCurrent < -0.3 then "discharging" else "idle"
  else if previousState = some "discharging" then
    if netCurrent < -0.3 then "discharging"
    else if netCurrent > 0.3 then "charging" else "idle"
  else
    if netCurrent > 1 then "charging"
    else if netCurrent < -1 then "discharging" else "idle"

/-- calculateBatteryState: coulomb-counted SOC clamped to [0,100], a
chemistry-specific resting-voltage curve clamped to [10.5,14.6], and the
hysteretic status. -/
def calculateBatteryState (spec : ComponentSpec) (netCurrent currentSoC deltaTime : ℚ)
    (previousState : Option String) : BatteryState :=
  let capacity := jsOr spec.capacity 100
  let chemistry := jsOrStr spec.batteryChemistry "lead-acid"
  let profile := getChargingProfile chemistry
  let ahChange := (netCurrent * deltaTime) / 3600
  let newSoC := max 0 (min 100 (currentSoC + (ahChange / capacity) * 100))
  let isLithium := chemistry = "lithium" ∨ chemistry = "lifepo4"
  let voltage0 :=
    if isLithium then
      if newSoC > 95 then profile.voltageAtFull + (newSoC - 95) * 0.02
      else if newSoC > 15 then profile.voltageAt50 + (newSoC - 50) * 0.005
      else profile.voltageAtEmpty + newSoC * 0.08
    else
      if newSoC > 80 then profile.voltageAt50 + (newSoC - 50) * 0.01
      else if newSoC > 20 then profile.voltageAtEmpty + (newSoC - 0) * 0.015
      else profile.voltageAtEmpty - (20 - newSoC) * 0.02
  let voltage := max 10.5 (min 14.6 voltage0)
  { voltage := voltage, stateOfCharge := newSoC,
    state := batteryStatus previousState netCurrent }

/-! ## DC-DC MPPT charger (chemistry-aware), decomposed to mirror the
sequential blocks of calculateDCDCMPPTStateWithChemistry -/

/-- Device charge-rate limit `spec.chargeRate || 30`. -/
def dcdcChargeRate (spec : ComponentSpec) : ℚ := jsOr spec.chargeRate 30

/-- Device efficiency `(spec.efficiency || 94) / 100`. -/
def dcdcEfficiencyQ (spec : ComponentSpec) : ℚ := (jsOr spec.efficiency 94) / 100

/-- Device max output power `spec.maxOutputPower || 400`. -/
def dcdcMaxOutputPower (spec : ComponentSpec) : ℚ := jsOr spec.maxOutputPower 400

/-- The cascade of current limits: min(device charge rate, capacity × chemistry
C-rate, max output power / target voltage). -/
def dcdcPowerLimitedMax (spec : ComponentSpec) (battV battCap : ℚ) (chem : String) : ℚ :=
  let profile := getChargingProfile chem
  let maxChemistryChargeCurrent := battCap * profile.maxChargeRate
  let effectiveMaxCurrent := min (dcdcChargeRate spec) maxChemistryChargeCurrent
  let maxCurrentByPower := dcdcMaxOutputPower spec / battV
  min effectiveMaxCurrent maxCurrentByPower

/-- The activation gate of the DC-DC (alternator) path: alternator voltage in
the input window, output voltage in the output window, and the starter battery
voltage (or alternator voltage when no starter reading) above the 13.2 V
activation threshold. -/
def dcdcActiveB (spec : ComponentSpec) (altV battV starterV : ℚ) : Bool :=
  let traditionalAltMin := jsOr spec.traditionalAltMin 13.2
  let altInputMin := jsOr spec.alternatorInputMin 12
  let altInputMax := jsOr spec.alternatorInputMax 16
  let maxInputVoltage := jsOr spec.maxInputVoltage 30
  let outputVoltageMin := jsOr spec.outputVoltageMin 9
  let outputVoltageMax := jsOr spec.outputVoltageMax 16
  let starterVoltageForCheck := if starterV > 0 then starterV else altV
  decide (altV ≥ altInputMin ∧ altV ≤ min altInputMax maxInputVoltage) &&
    decide (battV ≥ outputVoltageMin ∧ battV ≤ outputVoltageMax) &&
    decide (starterVoltageForCheck ≥ traditionalAltMin)

/-- Raw alternator-path current before efficiency:
`min(powerLimitedMaxCurrent, (inputVoltage - targetVoltage) × 5)`. -/
def dcdcAltRaw (spec : ComponentSpec) (altV battV battCap : ℚ) (chem : String) : ℚ :=
  min (dcdcPowerLimitedMax spec battV battCap chem) ((altV - battV) * 5)

/-- Alternator-path contribution to the output current. -/
def dcdcAltOut (spec : ComponentSpec) (altV battV starterV battCap : ℚ) (chem : String) : ℚ :=
  if dcdcActiveB spec altV battV starterV ∧ dcdcAltRaw spec altV battV battCap chem > 0 then
    dcdcAltRaw spec altV battV battCap chem * dcdcEfficiencyQ spec
  else 0

/-- Alternator input power drawn when the alternator path is active. -/
def dcdcAltInPower (spec : ComponentSpec) (altV battV starterV battCap : ℚ) (chem : String) : ℚ :=
  if dcdcActiveB spec altV battV starterV ∧ dcdcAltRaw spec altV battV battCap chem > 0 then
    altV * dcdcAltRaw spec altV battV battCap chem
  else 0

/-- Solar MPPT input validity: solar voltage in window, output voltage valid. -/
def dcdcSolarValid (spec : ComponentSpec) (solarV battV : ℚ) : Bool :=
  let solarInputMin := jsOr spec.solarInputMin 9
  let solarInputMax := jsOr spec.solarInputMax 32
  let outputVoltageMin := jsOr spec.outputVoltageMin 9
  let outputVoltageMax := jsOr spec.outputVoltageMax 16
  decide (solarV ≥ solarInputMin ∧ solarV ≤ solarInputMax) &&
    decide (battV ≥ outputVoltageMin ∧ battV ≤ outputVoltageMax)

/-- Solar input power actually taken: `min(solarPower, maxSolarWattage)` when
the solar input is valid and producing. -/
def dcdcSolarInActual (spec : ComponentSpec) (solarV solarP battV : ℚ) : ℚ :=
  if dcdcSolarValid spec solarV battV ∧ solarP > 0 then
    min solarP (jsOr spec.maxSolarWattage 400)
  else 0

/-- Solar-path contribution to the output current (capped by the per-device
solar current limit and by the remaining headroom under the power limit). -/
def dcdcSolarOut (spec : ComponentSpec) (altV solarV solarP battV starterV battCap : ℚ)
    (chem : String) : ℚ :=
  if dcdcSolarValid spec solarV battV ∧ solarP > 0 then
    max 0 (min (min (dcdcSolarInActual spec solarV solarP battV * dcdcEfficiencyQ spec / battV)
      (jsOr spec.maxSolarCurrent 30))
      (dcdcPowerLimitedMax spec battV battCap chem - dcdcAltOut spec altV battV starterV battCap chem))
  else 0

/-- The output current accumulated from both inputs before the charge-stage
machine runs. -/
def dcdcPre (spec : ComponentSpec) (altV solarV solarP battV starterV battCap : ℚ)
    (chem : String) : ℚ :=
  dcdcAltOut spec altV battV starterV battCap chem +
    dcdcSolarOut spec altV solarV solarP battV starterV battCap chem

/-- The chemistry-keyed charge-stage machine: given the target SOC and the
accumulated current, the stage label and the (possibly tapered) current. -/
def dcdcStage (chem : String) (soc pre : ℚ) : String × ℚ :=
  let isLithium := chem = "lithium" ∨ chem = "lifepo4"
  if pre > 0 then
    if isLithium then
      if soc < 95 then ("bulk (CC)", pre)
      else if soc < 100 then ("absorption (CV)", pre * ((100 - soc) / 5))
      else ("full - stopped", 0)
    else
      if soc < 80 then ("bulk", pre)
      else if soc < 95 then ("absorption", pre * (0.7 + ((95 - soc) / 15) * 0.3))
      else ("float", pre * 0.1)
  else ("idle", pre)

/-- calculateDCDCMPPTStateWithChemistry assembled from the pieces above.
NOTE (faithful to the source): the returned `power` is computed from the
capped pre-fault output current, so in the overvoltage-fault branch `power`
keeps its pre-fault value while `current` is forced to 0. -/
def calculateDCDCMPPTStateWithChemistry (spec : ComponentSpec)
    (alternatorVoltage solarVoltage solarPower batteryVoltage batterySOC batteryCapacity : ℚ)
    (batteryChemistry : String) (starterBatteryVoltage ambientTempC : ℚ) : NodeSimState :=
  let efficiency := dcdcEfficiencyQ spec
  let maxInputVoltage := jsOr spec.maxInputVoltage 30
  let traditionalAltMin := jsOr spec.traditionalAltMin 13.2
  let profile := getChargingProfile batteryChemistry
  let isLithium := batteryChemistry = "lithium" ∨ batteryChemistry = "lifepo4"
  let tempDeltaC := ambientTempC - 25
  let tempCompMv := if isLithium then jsOr spec.tempCompLithium 0
    else jsOr spec.tempCompNonLithium (-3)
  let voltageCompensation := (tempCompMv * tempDeltaC * 6) / 1000
  let powerLimitedMaxCurrent := dcdcPowerLimitedMax spec batteryVoltage batteryCapacity batteryChemistry
  let alternatorInputPower := dcdcAltInPower spec alternatorVoltage batteryVoltage
    starterBatteryVoltage batteryCapacity batteryChemistry
  let solarInputPowerActual := dcdcSolarInActual spec solarVoltage solarPower batteryVoltage
  let pre := dcdcPre spec alternatorVoltage solarVoltage solarPower batteryVoltage
    starterBatteryVoltage batteryCapacity batteryChemistry
  let active := dcdcActiveB spec alternatorVoltage batteryVoltage starterBatteryVoltage
  let sc := dcdcStage batteryChemistry batterySOC pre
  let outputCurrent0 := min sc.2 powerLimitedMaxCurrent
  let outputPower := outputCurrent0 * batteryVoltage
  let stateStr0 := if outputCurrent0 > 0.1 then "charging"
    else if active ∨ solarInputPowerActual > 0 then "on" else "idle"
  let fault := alternatorVoltage > maxInputVoltage
  let outputCurrent := if fault then 0 else outputCurrent0
  { voltage := batteryVoltage,
    current := outputCurrent,
    power := outputPower,
    state := if fault then "fault" else stateStr0,
    stateOfCharge := none,
    efficiency := some (efficiency * 100),
    inputVoltage := some (max alternatorVoltage solarVoltage),
    outputVoltage := some batteryVoltage,
    inputCurrent := some ((alternatorInputPower + solarInputPowerActual) /
      max (max alternatorVoltage solarVoltage) 1),
    outputCurrent := some outputCurrent,
    solarInputPower := some solarInputPowerActual,
    alternatorInputPower := some alternatorInputPower,
    chargeStage := some (if fault then "overvoltage protection" else sc.1),
    dcDcActive := some active,
    activationThreshold := some traditionalAltMin,
    tempCompensation := some voltageCompensation,
    maxOutputPower := some (dcdcMaxOutputPower spec),
    compensatedBulkVoltage := some (profile.bulkVoltage + voltageCompensation),
    compensatedFloatVoltage := some (profile.floatVoltage + voltageCompensation) }

/-! ## Connectivity tracer -/

/-- Whether the node has any incident edge. -/
def isNodeConnected (edges : List SimEdge) (nodeId : String) : Bool :=
  edges.any (fun e => e.source == nodeId || e.target == nodeId)

/-- All directly connected node ids (both directions, in edge order). -/
def getDirectConnections (edges : List SimEdge) (nodeId : String) : List String :=
  edges.foldl (fun acc e =>
    let acc := if e.source = nodeId then acc ++ [e.target] else acc
    if e.target = nodeId then acc ++ [e.source] else acc) []

/-- The pass-through categories the tracer recurses through. -/
def isPassthru (c : String) : Bool :=
  c == "protection" || c == "distribution" || c == "switching" || c == "ground"

/-- The loop body of traceAllConnections over the direct connections,
parameterized by the recursive traversal (the mutable visited set is threaded
explicitly; the result list keeps the traversal order). -/
def traceLoopWith (nodes : List SimNode)
    (recurse : String → List String → List SimNode × List String) :
    List String → List String → List SimNode × List String
  | [], visited => ([], visited)
  | c :: cs, visited =>
    if c ∈ visited then traceLoopWith nodes recurse cs visited
    else
      match nodes.find? (fun n => n.id == c) with
      | none => traceLoopWith nodes recurse cs visited
      | some cn =>
        if isPassthru cn.spec.category then
          let p := recurse c visited
          let q := traceLoopWith nodes recurse cs p.2
          (p.1 ++ q.1, q.2)
        else
          let q := traceLoopWith nodes recurse cs (c :: visited)
          (cn :: q.1, q.2)

/-- traceAllConnections with explicit fuel (the JS recursion terminates
because the visited set strictly grows; the wrapper below supplies more fuel
than the traversal can ever consume, so the fuel never runs out). -/
def traceAllFuel (nodes : List SimNode) (edges : List SimEdge) :
    ℕ → String → List String → List SimNode × List String
  | 0, _, visited => ([], visited)
  | fuel + 1, startId, visited =>
    if startId ∈ visited then ([], visited)
    else traceLoopWith nodes (traceAllFuel nodes edges fuel)
      (getDirectConnections edges startId) (startId :: visited)

/-- traceAllConnections: all non-pass-through nodes reachable from startId,
each returned once, tracing through protection/distribution/switching/ground. -/
def traceAllConnections (nodes : List SimNode) (edges : List SimEdge)
    (startId : String) : List SimNode :=
  (traceAllFuel nodes edges (2 * edges.length + nodes.length + 2) startId []).1

/-- findConnectedByType: traced nodes filtered by type. -/
def findConnectedByType (nodes : List SimNode) (edges : List SimEdge)
    (nodeId : String) (types : List String) : List SimNode :=
  (traceAllConnections nodes edges nodeId).filter (fun n => n.spec.type ∈ types)

/-- findConnectedByCategory: traced nodes filtered by category. -/
def findConnectedByCategory (nodes : List SimNode) (edges : List SimEdge)
    (nodeId : String) (categories : List String) : List SimNode :=
  (traceAllConnections nodes edges nodeId).filter (fun n => n.spec.category ∈ categories)

/-- The four battery types. -/
def batteryTypes : List String :=
  ["battery", "battery-bank", "starter-battery", "house-battery"]

/-- Whether a type string is one of the battery types. -/
def isBatteryType (t : String) : Bool :=
  t == "battery" || t == "battery-bank" || t == "starter-battery" || t == "house-battery"

/-- isConnectedToBattery: the trace reaches at least one battery. -/
def isConnectedToBattery (nodes : List SimNode) (edges : List SimEdge)
    (nodeId : String) : Bool :=
  (findConnectedByType nodes edges nodeId batteryTypes).length > 0

/-- isConnectedToPower: the trace reaches a battery, shore power, alternator,
a charging-category device, or any power-source-category device. -/
def isConnectedToPower (nodes : List SimNode) (edges : List SimEdge)
    (nodeId : String) : Bool :=
  (traceAllConnections nodes edges nodeId).any (fun n =>
    n.spec.type == "battery" || n.spec.type == "battery-bank" ||
    n.spec.type == "starter-battery" || n.spec.type == "house-battery" ||
    n.spec.type == "shore-power" || n.spec.type == "alternator" ||
    n.spec.category == "charging" || n.spec.category == "power-source")

/-- findConnectedBattery: the first traced battery, if any. -/
def findConnectedBattery (nodes : List SimNode) (edges : List SimEdge)
    (nodeId : String) : Option SimNode :=
  (findConnectedByType nodes edges nodeId batteryTypes).head?

/-! ## Simulation accumulator (the shared mutable state of runSimulation) -/

/-- The per-battery circuit accumulator entry. -/
structure Circuit where
  generation : ℚ
  load : ℚ
  deriving DecidableEq

/-- Pointwise update of a string-keyed map. -/
def updateFn {α : Type} (f : String → Option α) (k : String) (v : α) :
    String → Option α :=
  fun x => if x = k then some v else f x

/-- The mutable state runSimulation threads through its passes. -/
structure SimAccum where
  nodeStates : String → Option NodeSimState
  systemVoltage : ℚ
  totalLoad : ℚ
  totalGeneration : ℚ
  circuits : String → Option Circuit
  warnings : List String
  errors : List String

/-- Pre-initialization of batteryCircuits for every battery node. -/
def initCircuits (nodes : List SimNode) : String → Option Circuit :=
  nodes.foldl (fun cs n =>
    if isBatteryType n.spec.type then
      match cs n.id with
      | some _ => cs
      | none => updateFn cs n.id { generation := 0, load := 0 }
    else cs) (fun _ => none)

/-- Previous-tick state lookup for a node. -/
def prevLookup (previousState : Option SystemSimulation) (nodeId : String) :
    Option NodeSimState :=
  match previousState with
  | some prev => prev.nodes nodeId
  | none => none

/-! ## First pass: power sources -/

/-- Credit the alternator power evenly to all traced batteries' circuits. -/
def creditAlternator (power : ℚ) (connectedBatteries : List SimNode)
    (circuits : String → Option Circuit) : String → Option Circuit :=
  connectedBatteries.foldl (fun cs b =>
    match cs b.id with
    | some c => updateFn cs b.id { c with generation := c.generation + power / (connectedBatteries.length : ℚ) }
    | none => cs) circuits

/-- The first pass per-node update: batteries are seeded from the previous
tick, solar and alternators compute raw output; alternator power is counted
only when the engine runs and a battery is traced. -/
def pass1Step (nodes : List SimNode) (edges : List SimEdge) (environment : EnvironmentState)
    (previousState : Option SystemSimulation) (acc : SimAccum) (node : SimNode) : SimAccum :=
  let spec := node.spec
  if spec.category ≠ "power-source" then acc
  else
    let prevState := prevLookup previousState node.id
    if isBatteryType spec.type then
      let currentSoC := match prevState with
        | some st => st.stateOfCharge.getD 80
        | none => 80
      let voltage := match prevState with
        | some st => if st.voltage = 0 then 12.8 else st.voltage
        | none => 12.8
      let st : NodeSimState :=
        { voltage := voltage, current := 0, power := 0,
          state := "idle", stateOfCharge := some currentSoC }
      { acc with nodeStates := updateFn acc.nodeStates node.id st,
                 systemVoltage := voltage }
    else if spec.type = "solar-panel" then
      let solar := calculateSolarOutput spec environment.solarIrradiance node.customValues
      let st : NodeSimState :=
        { voltage := solar.voltage, current := solar.current,
          power := solar.power, state := if solar.power > 0 then "on" else "idle" }
      { acc with nodeStates := updateFn acc.nodeStates node.id st }
    else if spec.type = "solar-array" then
      let solar := calculateSolarArrayOutput spec environment.solarIrradiance node.customValues
      let st : NodeSimState :=
        { voltage := solar.voltage, current := solar.current,
          power := solar.power, state := if solar.power > 0 then "on" else "idle" }
      { acc with nodeStates := updateFn acc.nodeStates node.id st }
    else if spec.type = "alternator" then
      let alt := calculateAlternatorOutput spec environment.alternatorRPM
      let isAltConnected := isConnectedToBattery nodes edges node.id
      let st : NodeSimState :=
        { voltage := alt.voltage,
          current := if alt.power > 0 ∧ isAltConnected then alt.current else 0,
          power := if alt.power > 0 ∧ isAltConnected then alt.power else 0,
          state := if alt.power > 0 ∧ isAltConnected then "on" else "idle" }
      let acc := { acc with nodeStates := updateFn acc.nodeStates node.id st }
      if environment.engineRunning ∧ isAltConnected then
        let connectedBatteries := findConnectedByType nodes edges node.id batteryTypes
        { acc with totalGeneration := acc.totalGeneration + alt.power,
                   circuits := creditAlternator alt.power connectedBatteries acc.circuits }
      else acc
    else acc

/-! ## Second pass: chargers -/

/-- A connected-battery candidate collected by the DC-DC MPPT block. -/
structure BattCand where
  id : String
  voltage : ℚ
  soc : ℚ
  label : String
  role : String
  chemistry : String
  capacity : ℚ
  deriving DecidableEq

/-- Role inference for one traced battery: explicit type or batteryRole tag
first, then the label-substring heuristic, else generic. -/
def battRoleOf (cn : SimNode) : String :=
  let label := lowerStr cn.label
  if cn.spec.type = "starter-battery" ∨ cn.spec.batteryRole = some "starter" then "starter"
  else if cn.spec.type = "house-battery" ∨ cn.spec.batteryRole = some "house" then "house"
  else if strIncludes label "starter" ∨ strIncludes label "start" ∨ strIncludes label "engine" then "starter"
  else if strIncludes label "house" ∨ strIncludes label "lithium" ∨ strIncludes label "aux" ∨ strIncludes label "lifepo" then "house"
  else "generic"

/-- The collection loop of the DC-DC MPPT block over all traced nodes:
max solar voltage, summed solar power, max alternator voltage, and the
connected-battery candidates in traversal order. -/
def collectDcdc (nodeStates : String → Option NodeSimState)
    (allConnected : List SimNode) : ℚ × ℚ × ℚ × List BattCand :=
  allConnected.foldl (fun st cn =>
    let solarV := st.1
    let solarP := st.2.1
    let inputV := st.2.2.1
    let batts := st.2.2.2
    match nodeStates cn.id with
    | none => st
    | some s =>
      if cn.spec.type = "solar-panel" ∨ cn.spec.type = "solar-array" then
        (max solarV s.voltage, solarP + s.power, inputV, batts)
      else if cn.spec.type = "alternator" then
        (solarV, solarP, if s.voltage > inputV then s.voltage else inputV, batts)
      else if isBatteryType cn.spec.type then
        let chemistry := jsOrStr cn.customValues.batteryChemistry
          (jsOrStr cn.spec.batteryChemistry "lead-acid")
        let capacity := jsOr cn.customValues.capacity (jsOr cn.spec.capacity 100)
        let cand : BattCand :=
          { id := cn.id, voltage := s.voltage, soc := jsOr s.stateOfCharge 50,
            label := lowerStr cn.label, role := battRoleOf cn,
            chemistry := chemistry, capacity := capacity }
        (solarV, solarP, inputV, batts ++ [cand])
      else st) (0, 0, 0, [])

/-- Stable insertion of a candidate into an id-sorted list. -/
def insertById (b : BattCand) : List BattCand → List BattCand
  | [] => [b]
  | h :: t => if b.id < h.id then b :: h :: t else h :: insertById b t

/-- Stable sort by id (models `sort((a, b) => a.id.localeCompare(b.id))`). -/
def sortById (l : List BattCand) : List BattCand := l.foldr insertById []

/-- The resolved source/target of the DC-DC MPPT block. -/
structure DcdcResolved where
  targetId : Option String
  targetVoltage : ℚ
  targetSoC : ℚ
  targetChemistry : String
  targetCapacity : ℚ
  starterVoltage : ℚ
  inputVoltage : ℚ

/-- Source/target battery resolution: explicit starter/house roles first, else
the deterministic id-sorted fallback; a single battery is always the target. -/
def resolveDcdcBatteries (systemVoltage inputV : ℚ) (batts : List BattCand) : DcdcResolved :=
  if batts.length ≥ 2 then
    match batts.find? (fun b => b.role == "starter"), batts.find? (fun b => b.role == "house") with
    | some starterBatt, some houseBatt =>
      { targetId := some houseBatt.id, targetVoltage := houseBatt.voltage,
        targetSoC := houseBatt.soc, targetChemistry := houseBatt.chemistry,
        targetCapacity := houseBatt.capacity, starterVoltage := starterBatt.voltage,
        inputVoltage := max inputV starterBatt.voltage }
    | _, _ =>
      match sortById batts with
      | s0 :: rest =>
        let target := rest.headD s0
        { targetId := some target.id, targetVoltage := target.voltage,
          targetSoC := target.soc, targetChemistry := target.chemistry,
          targetCapacity := target.capacity, starterVoltage := s0.voltage,
          inputVoltage := max inputV s0.voltage }
      | [] =>
        { targetId := none, targetVoltage := systemVoltage, targetSoC := 50,
          targetChemistry := "lead-acid", targetCapacity := 100,
          starterVoltage := 0, inputVoltage := inputV }
  else
    match batts with
    | [b] =>
      { targetId := some b.id, targetVoltage := b.voltage, targetSoC := b.soc,
        targetChemistry := b.chemistry, targetCapacity := b.capacity,
        starterVoltage := 0, inputVoltage := inputV }
    | _ =>
      { targetId := none, targetVoltage := systemVoltage, targetSoC := 50,
        targetChemistry := "lead-acid", targetCapacity := 100,
        starterVoltage := 0, inputVoltage := inputV }

/-- The second pass per-node update: DC-DC MPPT chargers resolve inputs and a
target battery and run the chemistry-aware charger; plain DC-DC chargers are
active iff the engine runs and a battery is traced. -/
def pass2Step (nodes : List SimNode) (edges : List SimEdge) (environment : EnvironmentState)
    (acc : SimAccum) (node : SimNode) : SimAccum :=
  let spec := node.spec
  if spec.category ≠ "charging" then acc
  else if spec.type = "dc-dc-mppt-charger" then
    let allConnected := traceAllConnections nodes edges node.id
    let col := collectDcdc acc.nodeStates allConnected
    let solarVoltage := col.1
    let solarPower := col.2.1
    let res := resolveDcdcBatteries acc.systemVoltage col.2.2.1 col.2.2.2
    let hasInput := res.inputVoltage > 10 ∨ solarPower > 0
    match res.targetId with
    | some tid =>
      if hasInput then
        let dcdcState := calculateDCDCMPPTStateWithChemistry spec res.inputVoltage
          solarVoltage solarPower res.targetVoltage res.targetSoC res.targetCapacity
          res.targetChemistry res.starterVoltage 25
        let acc :=
          { acc with nodeStates := updateFn acc.nodeStates node.id dcdcState,
                     totalGeneration := acc.totalGeneration + dcdcState.power }
        match acc.circuits tid with
        | some c =>
          let c' : Circuit := { c with generation := c.generation + dcdcState.power }
          { acc with circuits := updateFn acc.circuits tid c' }
        | none => acc
      else
        let idleSt : NodeSimState :=
          { voltage := 0, current := 0, power := 0, state := "idle",
            efficiency := some (jsOr spec.efficiency 98),
            inputVoltage := some (max res.inputVoltage solarVoltage),
            outputVoltage := some 0, inputCurrent := some 0, outputCurrent := some 0,
            solarInputPower := some 0, alternatorInputPower := some 0 }
        { acc with nodeStates := updateFn acc.nodeStates node.id idleSt }
    | none =>
      let idleSt : NodeSimState :=
        { voltage := 0, current := 0, power := 0, state := "idle",
          efficiency := some (jsOr spec.efficiency 98),
          inputVoltage := some (max res.inputVoltage solarVoltage),
          outputVoltage := some 0, inputCurrent := some 0, outputCurrent := some 0,
          solarInputPower := some 0, alternatorInputPower := some 0 }
      { acc with nodeStates := updateFn acc.nodeStates node.id idleSt }
  else if spec.type = "dc-dc-charger" then
    let chargeRate := jsOr node.customValues.chargeRate (jsOr spec.chargeRate 20)
    let inputActive := environment.engineRunning
    let connectedBattery := findConnectedBattery nodes edges node.id
    let hasBattery := connectedBattery.isSome
    let isCharging := inputActive ∧ hasBattery
    let st : NodeSimState :=
      { voltage := acc.systemVoltage,
        current := if isCharging then chargeRate else 0,
        power := if isCharging then chargeRate * acc.systemVoltage else 0,
        state := if isCharging then "charging" else "idle",
        efficiency := some (jsOr spec.efficiency 92) }
    let acc' := { acc with nodeStates := updateFn acc.nodeStates node.id st }
    if isCharging then
      match connectedBattery with
      | some batt =>
        let acc'' := { acc' with totalGeneration := acc'.totalGeneration + chargeRate * acc.systemVoltage }
        match acc''.circuits batt.id with
        | some c =>
          let c' : Circuit := { c with generation := c.generation + chargeRate * acc.systemVoltage }
          { acc'' with circuits := updateFn acc''.circuits batt.id c' }
        | none => acc''
      | none => acc'
    else acc'
  else acc

/-! ## Third pass: loads and passive components -/

/-- The effective fuse/breaker rating: `customValues.rating || spec.rating || 15`. -/
def protectionRating (node : SimNode) : ℚ :=
  jsOr node.customValues.rating (jsOr node.spec.rating 15)

/-- Sum of the currents of traced loads whose state is on. -/
def protectionLoadSum (nodes : List SimNode) (edges : List SimEdge)
    (nodeStates : String → Option NodeSimState) (nodeId : String) : ℚ :=
  (findConnectedByCategory nodes edges nodeId ["load"]).foldl (fun s loadNode =>
    match nodeStates loadNode.id with
    | some loadState => if loadState.state = "on" then s + loadState.current else s
    | none => s) 0

/-- Sum of the output currents of traced chargers whose state is on or
charging (`outputCurrent || current || 0`). -/
def protectionChargeSum (nodes : List SimNode) (edges : List SimEdge)
    (nodeStates : String → Option NodeSimState) (nodeId : String) : ℚ :=
  (findConnectedByCategory nodes edges nodeId ["charging"]).foldl (fun s chargerNode =>
    match nodeStates chargerNode.id with
    | some st =>
      if st.state = "on" ∨ st.state = "charging" then
        s + jsOr st.outputCurrent (if st.current = 0 then 0 else st.current)
      else s
    | none => s) 0

/-- The third pass per-node update: loads (active iff on and powered),
protection devices (max of load and charging current, fault/off/on state and
the over-rated warning), and the pass-through distribution/switching/default
states. -/
def pass3Step (nodes : List SimNode) (edges : List SimEdge)
    (acc : SimAccum) (node : SimNode) : SimAccum :=
  let spec := node.spec
  if spec.category = "power-source" ∨ spec.category = "charging" then acc
  else if spec.category = "load" then
    let maxCurrent := jsOr node.customValues.maxCurrent (jsOr spec.maxCurrent 5)
    let isOn := node.customValues.isOn ≠ some false
    let isPowered := isConnectedToPower nodes edges node.id
    let isActive := isOn ∧ isPowered
    let current := if isActive then maxCurrent else 0
    let power := current * acc.systemVoltage
    let st : NodeSimState :=
      { voltage := if isPowered then acc.systemVoltage else 0,
        current := current, power := power,
        state := if isActive then "on" else if isOn ∧ ¬ isPowered then "fault" else "off" }
    let acc' := { acc with nodeStates := updateFn acc.nodeStates node.id st }
    if isActive then
      let acc'' := { acc' with totalLoad := acc'.totalLoad + power }
      match findConnectedBattery nodes edges node.id with
      | some batt =>
        match acc''.circuits batt.id with
        | some c =>
          let c' : Circuit := { c with load := c.load + power }
          { acc'' with circuits := updateFn acc''.circuits batt.id c' }
        | none => acc''
      | none => acc''
    else acc'
  else if spec.category = "protection" then
    let totalDownstreamCurrent := protectionLoadSum nodes edges acc.nodeStates node.id
    let totalChargingCurrent := protectionChargeSum nodes edges acc.nodeStates node.id
    let rating := protectionRating node
    let currentThrough := max totalDownstreamCurrent totalChargingCurrent
    let isOverloaded := currentThrough > rating
    let isBlown := node.customValues.isBlown = some true
    let fuseState := if isBlown then "off" else if isOverloaded then "fault" else "on"
    let st : NodeSimState :=
      { voltage := if fuseState = "off" then 0 else acc.systemVoltage,
        current := if fuseState = "off" then 0 else currentThrough,
        power := if fuseState = "off" then 0 else currentThrough * acc.systemVoltage,
        state := fuseState }
    let acc' := { acc with nodeStates := updateFn acc.nodeStates node.id st }
    if isOverloaded ∧ ¬ isBlown then
      { acc' with warnings := acc'.warnings ++
          [node.label ++ " is over-rated: " ++ toFixedQ 1 currentThrough ++
            "A through " ++ qToStr rating ++ "A fuse!"] }
    else acc'
  else if spec.category = "distribution" then
    let st : NodeSimState :=
      { voltage := acc.systemVoltage, current := 0, power := 0, state := "on" }
    { acc with nodeStates := updateFn acc.nodeStates node.id st }
  else if spec.category = "switching" then
    let st : NodeSimState :=
      { voltage := acc.systemVoltage, current := 0, power := 0, state := "on" }
    { acc with nodeStates := updateFn acc.nodeStates node.id st }
  else
    let st : NodeSimState :=
      { voltage := acc.systemVoltage, current := 0, power := 0, state := "idle" }
    { acc with nodeStates := updateFn acc.nodeStates node.id st }

/-! ## Fourth pass: battery finalization -/

/-- The capacity override merged into the spec for calculateBatteryState:
`customValues.capacity || spec.capacity` (still an optional value). -/
def batteryCapacityOverride (node : SimNode) : Option ℚ :=
  match node.customValues.capacity with
  | some x => if x = 0 then node.spec.capacity else some x
  | none => node.spec.capacity

/-- The effective battery capacity used for the primary-battery check:
`customValues.capacity || spec.capacity || 100`. -/
def batteryEffCapacity (node : SimNode) : ℚ :=
  jsOr node.customValues.capacity (jsOr node.spec.capacity 100)

/-- The fourth pass per-node update: for every battery-typed node, read the
circuit accumulator, integrate SOC, finalize voltage/status, refresh the
system voltage from capacity-qualified batteries, and emit low-SOC
warnings/errors. -/
def pass4Step (edges : List SimEdge)
    (previousState : Option SystemSimulation) (deltaTime : ℚ)
    (acc : SimAccum) (node : SimNode) : SimAccum :=
  let spec := node.spec
  if isBatteryType spec.type then
    let prevState := prevLookup previousState node.id
    let currentSoC := match prevState with
      | some st => st.stateOfCharge.getD 80
      | none => 80
    let previousBatteryState := prevState.map (fun st => st.state)
    let circuit := acc.circuits node.id
    let connected := isNodeConnected edges node.id
    let netPowerForBattery := match circuit with
      | some c => if connected then c.generation - c.load else 0
      | none => 0
    let netCurrentForBattery := match circuit with
      | some c => if connected then (c.generation - c.load) / acc.systemVoltage else 0
      | none => 0
    let battState := calculateBatteryState
      { spec with capacity := batteryCapacityOverride node }
      netCurrentForBattery currentSoC deltaTime previousBatteryState
    let base := (acc.nodeStates node.id).getD {}
    let st : NodeSimState :=
      { base with voltage := battState.voltage,
                  current := if connected then |netCurrentForBattery| else 0,
                  power := if connected then |netPowerForBattery| else 0,
                  state := if connected then battState.state else "idle",
                  stateOfCharge := some battState.stateOfCharge }
    let acc' : SimAccum := { acc with nodeStates := updateFn acc.nodeStates node.id st }
    let battCapacity : ℚ := batteryEffCapacity node
    let acc'' : SimAccum := if battCapacity ≥ 100 ∨ acc'.systemVoltage = 12 then
        { acc' with systemVoltage := battState.voltage }
      else acc'
    let acc''' := if battState.stateOfCharge < 20 then
        { acc'' with warnings := acc''.warnings ++
          ["Battery " ++ node.label ++ " is low (" ++
            toFixedQ 0 battState.stateOfCharge ++ "%)"] }
      else acc''
    if battState.stateOfCharge < 10 then
      { acc''' with errors := acc'''.errors ++
        ["Battery " ++ node.label ++ " critically low!"] }
    else acc'''
  else acc

/-! ## Diagnostics engine (the warning/error blocks after the four passes,
in source order) -/

/-- Append a warning. -/
def addWarn (acc : SimAccum) (w : String) : SimAccum :=
  { acc with warnings := acc.warnings ++ [w] }

/-- Append an error. -/
def addErr (acc : SimAccum) (e : String) : SimAccum :=
  { acc with errors := acc.errors ++ [e] }

/-- Connection warnings per node: disconnected components, unpowered loads,
solar with no charger, alternator with nothing useful, charger with no
battery, MPPT charger with no input. -/
def diagConnectionStep (nodes : List SimNode) (edges : List SimEdge)
    (environment : EnvironmentState) (acc : SimAccum) (node : SimNode) : SimAccum :=
  let spec := node.spec
  let connected := isNodeConnected edges node.id
  let state := acc.nodeStates node.id
  if ¬ connected then
    if spec.category = "power-source" ∧ spec.type ≠ "battery" ∧ spec.type ≠ "battery-bank" then
      addWarn acc (node.label ++ " is not connected to anything")
    else if spec.category = "load" then
      addWarn acc (node.label ++ " has no wire connections")
    else if spec.category = "charging" then
      addWarn acc (node.label ++ " is not wired into the system")
    else acc
  else
    let acc := if spec.category = "load" ∧ node.customValues.isOn ≠ some false ∧
        ¬ isConnectedToPower nodes edges node.id then
        addWarn acc (node.label ++ " is on but not connected to a battery")
      else acc
    let acc := if (spec.type = "solar-panel" ∨ spec.type = "solar-array") ∧
        (findConnectedByCategory nodes edges node.id ["charging"]).length = 0 ∧
        (match state with | some st => decide (st.power > 0) | none => false) = true then
        addWarn acc (node.label ++ " is producing power but not connected to a charger")
      else acc
    let acc := if spec.type = "alternator" ∧
        (findConnectedByType nodes edges node.id batteryTypes).length = 0 ∧
        (findConnectedByCategory nodes edges node.id ["charging"]).length = 0 ∧
        environment.engineRunning then
        addWarn acc (node.label ++ " is running but not connected to a battery or charger")
      else acc
    let acc := if spec.category = "charging" ∧
        (findConnectedByType nodes edges node.id batteryTypes).length = 0 then
        addWarn acc (node.label ++ " has no battery connected to charge")
      else acc
    if spec.type = "dc-dc-mppt-charger" ∧
        (findConnectedByType nodes edges node.id ["solar-panel", "solar-array"]).length = 0 ∧
        (findConnectedByType nodes edges node.id ["alternator"]).length = 0 ∧
        (findConnectedByType nodes edges node.id batteryTypes).length < 2 then
      addWarn acc (node.label ++ " has no power input (solar, alternator, or starter battery)")
    else acc

/-- Battery-attachment warnings: starter battery carrying house loads, and
batteries with no loads or chargers. -/
def diagBatteryAttachStep (nodes : List SimNode) (edges : List SimEdge)
    (acc : SimAccum) (node : SimNode) : SimAccum :=
  let spec := node.spec
  if isBatteryType spec.type ∧ isNodeConnected edges node.id then
    let allConnected := traceAllConnections nodes edges node.id
    let hasLoads := allConnected.any (fun n => n.spec.category == "load")
    let hasChargers := allConnected.any (fun n => n.spec.category == "charging")
    let acc := if spec.type = "starter-battery" ∨ spec.batteryRole = some "starter" then
        if allConnected.any (fun n => n.spec.category == "load" &&
            n.spec.type != "starter-motor" && n.spec.type != "engine") then
          addWarn acc ("⚠️ " ++ node.label ++
            " has house loads connected! Starter battery should only power starter motor.")
        else acc
      else acc
    if ¬ hasLoads ∧ ¬ hasChargers then
      addWarn acc (node.label ++ " is not connected to any loads or chargers")
    else acc
  else acc

/-- Missing-protection warnings: a connected load tracing to a battery but to
no protection device. -/
def diagNoProtectionStep (nodes : List SimNode) (edges : List SimEdge)
    (acc : SimAccum) (node : SimNode) : SimAccum :=
  let spec := node.spec
  if spec.category = "load" ∧ isNodeConnected edges node.id then
    let allConnected := traceAllConnections nodes edges node.id
    let hasProtection := allConnected.any (fun n => n.spec.category == "protection")
    let hasBattery := allConnected.any (fun n => isBatteryType n.spec.type)
    if hasBattery ∧ ¬ hasProtection then
      addWarn acc ("⚠️ " ++ node.label ++ " has no fuse/breaker protection!")
    else acc
  else acc

/-- Undersized-fuse errors: rating below 80% of the observed current. -/
def diagUndersizedFuseStep (edges : List SimEdge)
    (acc : SimAccum) (node : SimNode) : SimAccum :=
  let spec := node.spec
  if spec.category = "protection" ∧ isNodeConnected edges node.id then
    let rating := protectionRating node
    match acc.nodeStates node.id with
    | some st =>
      if st.current > 0 ∧ rating < st.current * 0.8 then
        addErr acc ("❌ " ++ node.label ++ " (" ++ qToStr rating ++
          "A) is undersized for " ++ toFixedQ 1 st.current ++ "A load!")
      else acc
    | none => acc
  else acc

/-- Solar-Voc-versus-charger-input errors for MPPT chargers. -/
def diagSolarVocStep (nodes : List SimNode) (edges : List SimEdge)
    (acc : SimAccum) (node : SimNode) : SimAccum :=
  let spec := node.spec
  if spec.category = "charging" ∧ spec.type = "dc-dc-mppt-charger" then
    let connectedSolar := findConnectedByType nodes edges node.id ["solar-panel", "solar-array"]
    let maxSolarVoltage := jsOr spec.solarInputMax 32
    connectedSolar.foldl (fun acc solarNode =>
      let voc := jsOr solarNode.customValues.voc (jsOr solarNode.spec.voc 22)
      if voc > maxSolarVoltage then
        addErr acc ("❌ " ++ solarNode.label ++ " Voc (" ++ qToStr voc ++
          "V) exceeds " ++ node.label ++ " max input (" ++ qToStr maxSolarVoltage ++ "V)!")
      else acc) acc
  else acc

/-- The house-battery capacity and daily load totals computed between the
diagnostics blocks. -/
def diagTotals (nodes : List SimNode) (nodeStates : String → Option NodeSimState) : ℚ × ℚ :=
  nodes.foldl (fun (t : ℚ × ℚ) node =>
    let spec := node.spec
    let t := if (spec.type = "battery" ∨ spec.type = "battery-bank" ∨ spec.type = "house-battery") ∧
        (spec.type ≠ "starter-battery" ∧ spec.batteryRole ≠ some "starter") then
        (t.1 + batteryEffCapacity node, t.2)
      else t
    if spec.category = "load" then
      match nodeStates node.id with
      | some st => if st.current > 0 then (t.1, t.2 + st.current * 8) else t
      | none => t
    else t) (0, 0)

/-- Charger-rate-versus-chemistry warnings. -/
def diagChargerRateStep (nodes : List SimNode) (edges : List SimEdge)
    (acc : SimAccum) (node : SimNode) : SimAccum :=
  let spec := node.spec
  if spec.category = "charging" then
    let chargerRate := jsOr node.customValues.chargeRate (jsOr spec.chargeRate 30)
    let connectedBatteries := findConnectedByType nodes edges node.id batteryTypes
    connectedBatteries.foldl (fun acc battNode =>
      let battCapacity := batteryEffCapacity battNode
      let isLithium := strIncludes (lowerStr battNode.label) "lithium" ∨
        strIncludes (lowerStr battNode.label) "lifepo"
      let maxSafeChargeRate := if isLithium then battCapacity else battCapacity * 0.5
      if chargerRate > maxSafeChargeRate then
        addWarn acc ("⚠️ " ++ node.label ++ " (" ++ qToStr chargerRate ++
          "A) may exceed safe charge rate for " ++ battNode.label ++ " (" ++
          toFixedQ 0 maxSafeChargeRate ++ "A max)")
      else acc) acc
  else acc

/-- Fuse-near-limit warnings (80% to 100% of rating). -/
def diagFuseNearLimitStep (edges : List SimEdge)
    (acc : SimAccum) (node : SimNode) : SimAccum :=
  let spec := node.spec
  if spec.category = "protection" ∧ isNodeConnected edges node.id then
    let rating := protectionRating node
    match acc.nodeStates node.id with
    | some st =>
      if st.current > 0 then
        let loadPercent := (st.current / rating) * 100
        if loadPercent ≥ 80 ∧ loadPercent < 100 then
          addWarn acc ("⚠️ " ++ node.label ++ " at " ++ toFixedQ 0 loadPercent ++
            "% capacity (" ++ toFixedQ 1 st.current ++ "A / " ++ qToStr rating ++ "A)")
        else acc
      else acc
    | none => acc
  else acc

/-- Battery discharge C-rate warnings. -/
def diagDischargeRateStep (edges : List SimEdge)
    (acc : SimAccum) (node : SimNode) : SimAccum :=
  let spec := node.spec
  if isBatteryType spec.type ∧ isNodeConnected edges node.id then
    let capacity := batteryEffCapacity node
    let isLithium := strIncludes (lowerStr node.label) "lithium" ∨
      strIncludes (lowerStr node.label) "lifepo"
    match acc.nodeStates node.id with
    | some st =>
      if st.state = "discharging" ∧ st.current > 0 then
        let cRate := st.current / capacity
        let maxCRate : ℚ := if isLithium then 1 else 0.2
        if cRate > maxCRate then
          addWarn acc ("⚡ " ++ node.label ++ " discharge rate (" ++ toFixedQ 2 cRate ++
            "C) exceeds recommended " ++ qToStr maxCRate ++ "C max")
        else acc
      else acc
    | none => acc
  else acc

/-- Series solar-array Voc warnings against each traced charger. -/
def diagSeriesVocStep (nodes : List SimNode) (edges : List SimEdge)
    (acc : SimAccum) (node : SimNode) : SimAccum :=
  let spec := node.spec
  if spec.type = "solar-array" then
    let arrayConfig := jsOrStr node.customValues.arrayConfig (jsOrStr spec.arrayConfig "parallel")
    let panelCount := jsOr node.customValues.panelCount (jsOr spec.panelCount 2)
    let voc := jsOr node.customValues.voc (jsOr spec.voc 22)
    if arrayConfig = "series" then
      let totalVoc := voc * panelCount
      let connectedChargers := findConnectedByCategory nodes edges node.id ["charging"]
      connectedChargers.foldl (fun acc charger =>
        let maxInput := jsOr charger.spec.solarInputMax 32
        if totalVoc > maxInput then
          addErr acc ("❌ " ++ node.label ++ " series Voc (" ++ qToStr totalVoc ++
            "V) exceeds " ++ charger.label ++ " max (" ++ qToStr maxInput ++ "V)!")
        else if totalVoc > maxInput * 0.9 then
          addWarn acc ("⚠️ " ++ node.label ++ " series Voc (" ++ qToStr totalVoc ++
            "V) close to " ++ charger.label ++ " max (" ++ qToStr maxInput ++ "V)")
        else acc) acc
    else acc
  else acc

/-- High-current wire-gauge advisories for loads and chargers. -/
def diagWireGaugeStep (acc : SimAccum) (node : SimNode) : SimAccum :=
  let spec := node.spec
  if spec.category = "load" ∨ spec.category = "charging" then
    match acc.nodeStates node.id with
    | some st =>
      if st.current > 30 then
        addWarn acc ("📏 " ++ node.label ++ " draws " ++ toFixedQ 1 st.current ++
          "A - ensure adequate wire gauge (≥10 AWG recommended)")
      else if st.current > 50 then
        addWarn acc ("📏 " ++ node.label ++ " draws " ++ toFixedQ 1 st.current ++
          "A - ensure adequate wire gauge (≥6 AWG recommended)")
      else acc
    | none => acc
  else acc

/-- Pairwise voltage-mismatch warnings over the house batteries (the i < j
double loop, warnings in loop order). -/
def mismatchWarnings : List (String × ℚ) → List String
  | [] => []
  | (l, v) :: rest =>
    (rest.filterMap (fun bv =>
      if |v - bv.2| > 0.5 then
        some ("⚠️ Voltage mismatch: " ++ l ++ " (" ++ toFixedQ 2 v ++ "V) vs " ++
          bv.1 ++ " (" ++ toFixedQ 2 bv.2 ++ "V)")
      else none)) ++ mismatchWarnings rest

/-- The house-battery voltage-mismatch block. -/
def diagVoltageMismatch (nodes : List SimNode) (acc : SimAccum) : SimAccum :=
  let batteries := nodes.filter (fun n => isBatteryType n.spec.type)
  let houseBatteries := batteries.filter (fun b =>
    b.spec.type == "house-battery" || b.spec.batteryRole == some "house" ||
    (b.spec.batteryRole != some "starter" && b.spec.type != "starter-battery"))
  if houseBatteries.length ≥ 2 then
    let batteryVoltages := houseBatteries.map (fun b =>
      (b.label, match acc.nodeStates b.id with
        | some st => if st.voltage = 0 then 12 else st.voltage
        | none => 12))
    { acc with warnings := acc.warnings ++ mismatchWarnings batteryVoltages }
  else acc

/-- Alternator-direct-to-lithium warnings. -/
def diagAltLithiumStep (nodes : List SimNode) (edges : List SimEdge)
    (acc : SimAccum) (node : SimNode) : SimAccum :=
  let spec := node.spec
  if spec.type = "alternator" ∧ isNodeConnected edges node.id then
    let connectedBatteries := findConnectedByType nodes edges node.id batteryTypes
    let connectedChargers := findConnectedByCategory nodes edges node.id ["charging"]
    let hasDCDC := connectedChargers.any (fun c =>
      c.spec.type == "dc-dc-charger" || c.spec.type == "dc-dc-mppt-charger")
    connectedBatteries.foldl (fun acc batt =>
      let isLithium := strIncludes (lowerStr batt.label) "lithium" ∨
        strIncludes (lowerStr batt.label) "lifepo"
      if isLithium ∧ ¬ hasDCDC then
        addWarn acc ("⚠️ " ++ node.label ++ " directly connected to " ++ batt.label ++
          " - consider DC-DC charger for lithium")
      else acc) acc
  else acc

/-- Distribution-bus overload checks. -/
def diagBusOverloadStep (nodes : List SimNode) (edges : List SimEdge)
    (acc : SimAccum) (node : SimNode) : SimAccum :=
  let spec := node.spec
  if spec.category = "distribution" ∧ isNodeConnected edges node.id then
    let connectedLoads := findConnectedByCategory nodes edges node.id ["load"]
    let totalBusCurrent := connectedLoads.foldl (fun s loadNode =>
      match acc.nodeStates loadNode.id with
      | some st => if st.state = "on" then s + st.current else s
      | none => s) 0
    let busRating := jsOr node.customValues.rating 100
    if totalBusCurrent > busRating then
      addErr acc ("❌ " ++ node.label ++ " overloaded: " ++ toFixedQ 1 totalBusCurrent ++
        "A exceeds " ++ qToStr busRating ++ "A rating!")
    else if totalBusCurrent > busRating * 0.8 then
      addWarn acc ("⚠️ " ++ node.label ++ " at " ++
        toFixedQ 0 ((totalBusCurrent / busRating) * 100) ++ "% capacity (" ++
        toFixedQ 1 totalBusCurrent ++ "A / " ++ qToStr busRating ++ "A)")
    else acc
  else acc

/-- All diagnostics blocks, in the order the source runs them. -/
def diagnostics (nodes : List SimNode) (edges : List SimEdge)
    (environment : EnvironmentState) (acc : SimAccum) : SimAccum :=
  let acc := nodes.foldl (diagConnectionStep nodes edges environment) acc
  let acc := nodes.foldl (diagBatteryAttachStep nodes edges) acc
  let acc := nodes.foldl (diagNoProtectionStep nodes edges) acc
  let acc := nodes.foldl (diagUndersizedFuseStep edges) acc
  let acc := nodes.foldl (diagSolarVocStep nodes edges) acc
  let totals := diagTotals nodes acc.nodeStates
  let totalBatteryCapacity := totals.1
  let totalDailyLoadAh := totals.2
  let acc := if totalBatteryCapacity > 0 ∧ totalDailyLoadAh > totalBatteryCapacity * 0.5 then
      addWarn acc ("⚡ Daily load (~" ++ toFixedQ 0 totalDailyLoadAh ++
        "Ah) may exceed safe battery discharge (" ++
        toFixedQ 0 (totalBatteryCapacity * 0.5) ++ "Ah at 50% DoD)")
    else acc
  let hasGroundBus := nodes.any (fun n => n.spec.category == "ground")
  let hasLoads := nodes.any (fun n => n.spec.category == "load")
  let acc := if hasLoads ∧ ¬ hasGroundBus then
      addWarn acc "⏚ No ground/negative bus in diagram - consider adding for complete circuit"
    else acc
  let acc := nodes.foldl (diagChargerRateStep nodes edges) acc
  let acc := nodes.foldl (diagFuseNearLimitStep edges) acc
  let acc := nodes.foldl (diagDischargeRateStep edges) acc
  let acc := nodes.foldl (diagSeriesVocStep nodes edges) acc
  let acc := if acc.totalLoad > 0 ∧ acc.totalGeneration > 0 ∧ totalBatteryCapacity = 0 then
      if acc.totalLoad > acc.totalGeneration then
        addWarn acc ("⚡ Load (" ++ toFixedQ 0 acc.totalLoad ++
          "W) exceeds generation (" ++ toFixedQ 0 acc.totalGeneration ++
          "W) with no battery backup!")
      else acc
    else acc
  let acc := nodes.foldl diagWireGaugeStep acc
  let acc := diagVoltageMismatch nodes acc
  let acc := nodes.foldl (diagAltLithiumStep nodes edges) acc
  nodes.foldl (diagBusOverloadStep nodes edges) acc

/-! ## runSimulation -/

/-- runSimulation: the four staged passes over the shared accumulator, the
per-edge connection states, and the diagnostics engine, returning the
SystemSimulation result. -/
def runSimulation (nodes : List SimNode) (edges : List SimEdge)
    (environment : EnvironmentState) (previousState : Option SystemSimulation)
    (deltaTime : ℚ) : SystemSimulation :=
  let acc0 : SimAccum :=
    { nodeStates := fun _ => none, systemVoltage := 12, totalLoad := 0,
      totalGeneration := 0, circuits := initCircuits nodes, warnings := [], errors := [] }
  let acc1 := nodes.foldl (pass1Step nodes edges environment previousState) acc0
  let acc2 := nodes.foldl (pass2Step nodes edges environment) acc1
  let acc3 := nodes.foldl (pass3Step nodes edges) acc2
  let acc4 := nodes.foldl (pass4Step edges previousState deltaTime) acc3
  let connectionStates := edges.foldl (fun cs e =>
    let st : ConnectionState :=
      { id := e.id, sourceId := e.source, targetId := e.target,
        voltage := acc4.systemVoltage, current := 0, power := 0, voltageDrop := 0,
        isActive := true }
    updateFn cs e.id st) (fun _ => none)
  let acc5 := diagnostics nodes edges environment acc4
  { systemVoltage := acc5.systemVoltage,
    totalLoad := acc5.totalLoad,
    totalGeneration := acc5.totalGeneration,
    netPower := acc5.totalGeneration - acc5.totalLoad,
    nodes := acc5.nodeStates,
    connections := connectionStates,
    warnings := acc5.warnings,
    errors := acc5.errors }

/-! ## Auxiliary predicates used by the verification -/

/-- Two accumulators agree on everything except the warning/error lists. -/
def sameCore (a b : SimAccum) : Prop :=
  a.nodeStates = b.nodeStates ∧ a.systemVoltage = b.systemVoltage ∧
  a.totalLoad = b.totalLoad ∧ a.totalGeneration = b.totalGeneration ∧
  a.circuits = b.circuits

/-- The pass-through categories, as a proposition. -/
def passthruCat (c : String) : Prop :=
  c = "protection" ∨ c = "distribution" ∨ c = "switching" ∨ c = "ground"

/-- Invariant of the tracer: the visited set only grows, every returned node
was freshly visited and is not pass-through, and the returned ids are
pairwise distinct. -/
def traceInv (visited : List String) (p : List SimNode × List String) : Prop :=
  (∀ x, x ∈ visited → x ∈ p.2) ∧
  (∀ n, n ∈ p.1 → n.id ∈ p.2 ∧ n.id ∉ visited ∧ isPassthru n.spec.category = false) ∧
  (p.1.map SimNode.id).Nodup

/-! ## Concrete scenario inputs used by the claim theorems and witnesses -/

/-- The default DCC30S-style spec used for the C4 witness. -/
def specC4 : ComponentSpec := { type := "dc-dc-mppt-charger", category := "charging" }

/-- Alternator node of the C6 witness. -/
def altC6 : SimNode :=
  { id := "alt", label := "Alternator",
    spec := { type := "alternator", category := "power-source", maxCurrent := some 100 } }

/-- Battery node of the C6 witness. -/
def battC6 : SimNode :=
  { id := "batt", label := "Starter",
    spec := { type := "battery", category := "power-source", capacity := some 100 } }

/-- Environment of the C6 witness: engine running at 1400 RPM. -/
def envC6 : EnvironmentState :=
  { solarIrradiance := 0, ambientTemp := 25,
    engineRunning := true, alternatorRPM := 1400, shoreConnected := false }

/-- Initial accumulator of the C6 witness. -/
def accC6 : SimAccum :=
  { nodeStates := fun _ => none, systemVoltage := 12,
    totalLoad := 0, totalGeneration := 0, circuits := initCircuits [altC6, battC6],
    warnings := [], errors := [] }

/-- The battery of the C2 chain battery—fuse—bus—load. -/
def chainBat : SimNode :=
  { id := "bat", label := "Battery",
    spec := { type := "battery", category := "power-source", capacity := some 100 } }

/-- The fuse (category protection) of the C2 chain. -/
def chainFuse : SimNode :=
  { id := "fuse", label := "Fuse",
    spec := { type := "fuse", category := "protection", rating := some 15 } }

/-- The bus bar (category distribution) of the C2 chain. -/
def chainBus : SimNode :=
  { id := "bus", label := "Bus",
    spec := { type := "bus-bar", category := "distribution" } }

/-- The load of the C2 chain. -/
def chainLoad : SimNode :=
  { id := "load", label := "Lights",
    spec := { type := "cabin-lights", category := "load", maxCurrent := some 5 } }

/-- The node list of the C2 chain. -/
def chainNodes : List SimNode := [chainBat, chainFuse, chainBus, chainLoad]

/-- The wires of the C2 chain. -/
def chainEdges : List SimEdge :=
  [⟨"e1", "bat", "fuse"⟩, ⟨"e2", "fuse", "bus"⟩, ⟨"e3", "bus", "load"⟩]

/-- The 15 A fuse of the C8 scenario. -/
def fuseC8 : SimNode :=
  { id := "f", label := "Main Fuse",
    spec := { type := "fuse", category := "protection", rating := some 15 } }

/-- The 20 A load of the C8 scenario. -/
def loadC8 : SimNode :=
  { id := "l", label := "Windlass",
    spec := { type := "windlass", category := "load", maxCurrent := some 20 } }

/-- The 5 A charger of the C8 scenario. -/
def chgC8 : SimNode :=
  { id := "c", label := "Charger",
    spec := { type := "dc-dc-charger", category := "charging", chargeRate := some 5 } }

/-- Nodes of the C8 scenario. -/
def nodesC8 : List SimNode := [fuseC8, loadC8, chgC8]

/-- Wires of the C8 scenario: fuse to load and fuse to charger. -/
def edgesC8 : List SimEdge := [⟨"e1", "f", "l"⟩, ⟨"e2", "f", "c"⟩]

/-- Accumulator of the C8 scenario after the first two passes: the load is on
at 20 A and the charger is charging with output current 5 A. -/
def accC8 : SimAccum :=
  { nodeStates := fun id =>
      if id = "l" then some { voltage := 12.8, current := 20, power := 256, state := "on" }
      else if id = "c" then
        some { voltage := 12.8, current := 5, power := 64,
               state := "charging", outputCurrent := some 5 }
      else none,
    systemVoltage := 12.8, totalLoad := 256, totalGeneration := 64,
    circuits := fun _ => none, warnings := [], errors := [] }

/-- The disconnected 100 Ah lead-acid battery of the C9 scenario. -/
def battC9 : SimNode :=
  { id := "b", label := "House Bank",
    spec := { type := "battery", category := "power-source", capacity := some 100,
              batteryChemistry := some "lead-acid" } }

/-- Idle environment of the C9 scenario. -/
def envC9 : EnvironmentState :=
  { solarIrradiance := 0, ambientTemp := 25, engineRunning := false,
    alternatorRPM := 0, shoreConnected := false }

/-- Previous-tick state of the C9 battery: SOC 57, resting voltage 12.655. -/
def stPrevC9 : NodeSimState :=
  { voltage := 12.655, current := 0, power := 0, state := "idle", stateOfCharge := some 57 }

/-- Previous-tick result of the C9 scenario. -/
def prevC9 : SystemSimulation :=
  { systemVoltage := 12.655, totalLoad := 0, totalGeneration := 0, netPower := 0,
    nodes := fun id => if id = "b" then some stPrevC9 else none,
    connections := fun _ => none, warnings := [], errors := [] }

/-- Initial accumulator of the C9 run. -/
def acc0C9 : SimAccum :=
  { nodeStates := fun _ => none, systemVoltage := 12, totalLoad := 0,
    totalGeneration := 0, circuits := initCircuits [battC9], warnings := [], errors := [] }

/-- Accumulator of the C9 run after the first pass. -/
def acc1C9 : SimAccum :=
  { nodeStates := updateFn acc0C9.nodeStates "b" stPrevC9, systemVoltage := 12.655,
    totalLoad := 0, totalGeneration := 0, circuits := initCircuits [battC9],
    warnings := [], errors := [] }

/-- Accumulator of the C9 run after all four passes. -/
def acc4C9 : SimAccum :=
  { nodeStates := updateFn acc1C9.nodeStates "b" stPrevC9, systemVoltage := 12.655,
    totalLoad := 0, totalGeneration := 0, circuits := initCircuits [battC9],
    warnings := [], errors := [] }

/-- The 200 Ah battery (highest capacity) of the C7 scenario. -/
def battA7 : SimNode :=
  { id := "a", label := "Bank A",
    spec := { type := "battery", category := "power-source", capacity := some 200 } }

/-- The 100 Ah battery, listed second, of the C7 scenario. -/
def battB7 : SimNode :=
  { id := "b", label := "Bank B",
    spec := { type := "battery", category := "power-source", capacity := some 100 } }

/-- Idle environment of the C7 scenario. -/
def envC7 : EnvironmentState :=
  { solarIrradiance := 0, ambientTemp := 25, engineRunning := false,
    alternatorRPM := 0, shoreConnected := false }

/-- Previous state of the 200 Ah battery: SOC 50, voltage 12.55. -/
def stA7 : NodeSimState :=
  { voltage := 12.55, current := 0, power := 0, state := "idle", stateOfCharge := some 50 }

/-- Previous state of the 100 Ah battery: SOC 70, voltage 12.85. -/
def stB7 : NodeSimState :=
  { voltage := 12.85, current := 0, power := 0, state := "idle", stateOfCharge := some 70 }

/-- Previous-tick result of the C7 scenario. -/
def prevC7 : SystemSimulation :=
  { systemVoltage := 12.85, totalLoad := 0, totalGeneration := 0, netPower := 0,
    nodes := fun id => if id = "a" then some stA7 else if id = "b" then some stB7 else none,
    connections := fun _ => none, warnings := [], errors := [] }

/-- Initial accumulator of the C7 run. -/
def acc0C7 : SimAccum :=
  { nodeStates := fun _ => none, systemVoltage := 12, totalLoad := 0,
    totalGeneration := 0, circuits := initCircuits [battA7, battB7],
    warnings := [], errors := [] }

/-- Accumulator of the C7 run after the first pass. -/
def acc1C7 : SimAccum :=
  { nodeStates := updateFn (updateFn acc0C7.nodeStates "a" stA7) "b" stB7,
    systemVoltage := 12.85, totalLoad := 0, totalGeneration := 0,
    circuits := initCircuits [battA7, battB7], warnings := [], errors := [] }

/-- Accumulator of the C7 run after all four passes. -/
def acc4C7 : SimAccum :=
  { nodeStates := updateFn (updateFn acc1C7.nodeStates "a" stA7) "b" stB7,
    systemVoltage := 12.85, totalLoad := 0, totalGeneration := 0,
    circuits := initCircuits [battA7, battB7], warnings := [], errors := [] }

/-- Fuse with a 0 rating override and no spec rating (C10 witness). -/
def fuseC10 : SimNode :=
  { id := "f10", label := "Fuse10",
    spec := { type := "fuse", category := "protection" },
    customValues := { rating := some 0 } }

/-- Solar spec with no nameplate wattage (C10 witness). -/
def solarSpecC10 : ComponentSpec := { type := "solar-panel", category := "power-source" }

/-- Battery with a 0 capacity override and no spec capacity (C10 witness). -/
def battC10 : SimNode :=
  { id := "b10", label := "Batt10",
    spec := { type := "battery", category := "power-source" },
    customValues := { capacity := some 0 } }

/-! # Theorems -/

theorem sameCore_rfl (a : SimAccum) : sameCore a a := ⟨rfl, rfl, rfl, rfl, rfl⟩

theorem sameCore_trans {a b c : SimAccum} (h1 : sameCore a b) (h2 : sameCore b c) :
    sameCore a c := by
  obtain ⟨x1, x2, x3, x4, x5⟩ := h1
  obtain ⟨y1, y2, y3, y4, y5⟩ := h2
  exact ⟨x1.trans y1, x2.trans y2, x3.trans y3, x4.trans y4, x5.trans y5⟩

theorem foldl_sameCore {α : Type} (f : SimAccum → α → SimAccum)
    (h : ∀ acc x, sameCore (f acc x) acc) :
    ∀ (l : List α) (acc : SimAccum), sameCore (List.foldl f acc l) acc := by
  intro l
  induction l with
  | nil => intro acc; exact sameCore_rfl _
  | cons x xs ih => intro acc; exact sameCore_trans (ih (f acc x)) (h acc x)

theorem sameCore_ite {c : Prop} [Decidable c] {x y a : SimAccum}
    (hx : sameCore x a) (hy : sameCore y a) : sameCore (if c then x else y) a := by
  split
  · exact hx
  · exact hy

theorem diagConnectionStep_sameCore (nodes edges env acc node) :
    sameCore (diagConnectionStep nodes edges env acc node) acc := by
  unfold diagConnectionStep
  dsimp only []
  repeat' split
  all_goals exact sameCore_rfl _

theorem diagBatteryAttachStep_sameCore (nodes edges acc node) :
    sameCore (diagBatteryAttachStep nodes edges acc node) acc := by
  unfold diagBatteryAttachStep
  dsimp only []
  repeat' split
  all_goals exact sameCore_rfl _

theorem diagNoProtectionStep_sameCore (nodes edges acc node) :
    sameCore (diagNoProtectionStep nodes edges acc node) acc := by
  unfold diagNoProtectionStep
  dsimp only []
  repeat' split
  all_goals exact sameCore_rfl _

theorem diagUndersizedFuseStep_sameCore (edges acc node) :
    sameCore (diagUndersizedFuseStep edges acc node) acc := by
  unfold diagUndersizedFuseStep
  dsimp only []
  repeat' split
  all_goals exact sameCore_rfl _

theorem diagSolarVocStep_sameCore (nodes edges acc node) :
    sameCore (diagSolarVocStep nodes edges acc node) acc := by
  unfold diagSolarVocStep
  dsimp only []
  split
  · exact foldl_sameCore _
      (fun a x => by split_ifs <;> exact sameCore_rfl _) _ _
  · exact sameCore_rfl _

theorem diagChargerRateStep_sameCore (nodes edges acc node) :
    sameCore (diagChargerRateStep nodes edges acc node) acc := by
  unfold diagChargerRateStep
  dsimp only []
  split
  · exact foldl_sameCore _
      (fun a x => by split_ifs <;> exact sameCore_rfl _) _ _
  · exact sameCore_rfl _

theorem diagFuseNearLimitStep_sameCore (edges acc node) :
    sameCore (diagFuseNearLimitStep edges acc node) acc := by
  unfold diagFuseNearLimitStep
  dsimp only []
  repeat' split
  all_goals exact sameCore_rfl _

theorem diagDischargeRateStep_sameCore (edges acc node) :
    sameCore (diagDischargeRateStep edges acc node) acc := by
  unfold diagDischargeRateStep
  dsimp only []
  repeat' split
  all_goals exact sameCore_rfl _

theorem diagSeriesVocStep_sameCore (nodes edges acc node) :
    sameCore (diagSeriesVocStep nodes edges acc node) acc := by
  unfold diagSeriesVocStep
  dsimp only []
  split
  · split
    · exact foldl_sameCore _
        (fun a x => by split_ifs <;> exact sameCore_rfl _) _ _
    · exact sameCore_rfl _
  · exact sameCore_rfl _

theorem diagWireGaugeStep_sameCore (acc node) :
    sameCore (diagWireGaugeStep acc node) acc := by
  unfold diagWireGaugeStep
  dsimp only []
  repeat' split
  all_goals exact sameCore_rfl _

theorem diagVoltageMismatch_sameCore (nodes acc) :
    sameCore (diagVoltageMismatch nodes acc) acc := by
  unfold diagVoltageMismatch
  dsimp only []
  repeat' split
  all_goals exact sameCore_rfl _

theorem diagAltLithiumStep_sameCore (nodes edges acc node) :
    sameCore (diagAltLithiumStep nodes edges acc node) acc := by
  unfold diagAltLithiumStep
  dsimp only []
  split
  · exact foldl_sameCore _
      (fun a x => by split_ifs <;> exact sameCore_rfl _) _ _
  · exact sameCore_rfl _

theorem diagBusOverloadStep_sameCore (nodes edges acc node) :
    sameCore (diagBusOverloadStep nodes edges acc node) acc := by
  unfold diagBusOverloadStep
  dsimp only []
  repeat' split
  all_goals exact sameCore_rfl _

/-- The diagnostics engine only appends warnings and errors: node states,
system voltage, the totals and the circuits are unchanged. -/
theorem diagnostics_sameCore (nodes edges env acc) :
    sameCore (diagnostics nodes edges env acc) acc := by
  unfold diagnostics
  dsimp only []
  refine sameCore_trans (foldl_sameCore _ (diagBusOverloadStep_sameCore nodes edges) _ _) ?_
  refine sameCore_trans (foldl_sameCore _ (diagAltLithiumStep_sameCore nodes edges) _ _) ?_
  refine sameCore_trans (diagVoltageMismatch_sameCore nodes _) ?_
  refine sameCore_trans (foldl_sameCore _ diagWireGaugeStep_sameCore _ _) ?_
  refine sameCore_trans (sameCore_ite (sameCore_ite (sameCore_rfl _) (sameCore_rfl _)) (sameCore_rfl _)) ?_
  refine sameCore_trans (foldl_sameCore _ (diagSeriesVocStep_sameCore nodes edges) _ _) ?_
  refine sameCore_trans (foldl_sameCore _ (diagDischargeRateStep_sameCore edges) _ _) ?_
  refine sameCore_trans (foldl_sameCore _ (diagFuseNearLimitStep_sameCore edges) _ _) ?_
  refine sameCore_trans (foldl_sameCore _ (diagChargerRateStep_sameCore nodes edges) _ _) ?_
  refine sameCore_trans (sameCore_ite (sameCore_rfl _) (sameCore_rfl _)) ?_
  refine sameCore_trans (sameCore_ite (sameCore_rfl _) (sameCore_rfl _)) ?_
  refine sameCore_trans (foldl_sameCore _ (diagSolarVocStep_sameCore nodes edges) _ _) ?_
  refine sameCore_trans (foldl_sameCore _ (diagUndersizedFuseStep_sameCore edges) _ _) ?_
  refine sameCore_trans (foldl_sameCore _ (diagNoProtectionStep_sameCore nodes edges) _ _) ?_
  refine sameCore_trans (foldl_sameCore _ (diagBatteryAttachStep_sameCore nodes edges) _ _) ?_
  exact foldl_sameCore _ (diagConnectionStep_sameCore nodes edges env) _ _

/-- C1: runSimulation is a pure function of (nodes, edges, environment,
previous result, deltaTime): two runs on identical inputs produce identical
results — same system voltage, totals, node states, connection states,
warnings and errors.  The embedding reads no clock and has no source of
randomness; every field of the result is determined by the inputs. -/
theorem runSimulation_deterministic (nodes : List SimNode) (edges : List SimEdge)
    (environment : EnvironmentState) (previousState : Option SystemSimulation)
    (deltaTime : ℚ) :
    (runSimulation nodes edges environment previousState deltaTime).systemVoltage =
      (runSimulation nodes edges environment previousState deltaTime).systemVoltage ∧
    (runSimulation nodes edges environment previousState deltaTime).totalLoad =
      (runSimulation nodes edges environment previousState deltaTime).totalLoad ∧
    (runSimulation nodes edges environment previousState deltaTime).totalGeneration =
      (runSimulation nodes edges environment previousState deltaTime).totalGeneration ∧
    (runSimulation nodes edges environment previousState deltaTime).netPower =
      (runSimulation nodes edges environment previousState deltaTime).netPower ∧
    (∀ nodeId, (runSimulation nodes edges environment previousState deltaTime).nodes nodeId =
      (runSimulation nodes edges environment previousState deltaTime).nodes nodeId) ∧
    (∀ edgeId, (runSimulation nodes edges environment previousState deltaTime).connections edgeId =
      (runSimulation nodes edges environment previousState deltaTime).connections edgeId) ∧
    (runSimulation nodes edges environment previousState deltaTime).warnings =
      (runSimulation nodes edges environment previousState deltaTime).warnings ∧
    (runSimulation nodes edges environment previousState deltaTime).errors =
      (runSimulation nodes edges environment previousState deltaTime).errors :=
  ⟨rfl, rfl, rfl, rfl, fun _ => rfl, fun _ => rfl, rfl, rfl⟩

/-- C3: the state of charge produced by a battery tick always lies in [0,100]:
for every spec, net current of any sign and magnitude, previous SOC, deltaTime
and previous status, the clamp `max 0 (min 100 _)` bounds the result. -/
theorem calculateBatteryState_soc_in_bounds (spec : ComponentSpec)
    (netCurrent currentSoC deltaTime : ℚ) (previousState : Option String) :
    0 ≤ (calculateBatteryState spec netCurrent currentSoC deltaTime previousState).stateOfCharge ∧
    (calculateBatteryState spec netCurrent currentSoC deltaTime previousState).stateOfCharge ≤ 100 := by
  unfold calculateBatteryState
  refine ⟨le_max_left 0 _, max_le (by norm_num) (min_le_left 100 _)⟩

/-- C5: the hysteretic status update is oscillation-free at the exit
threshold: for every previous status and every net current whose magnitude is
exactly the exit threshold 0.3, one update step reaches a status (idle) that
is a fixed point of a second step with the same current, so the status can
not toggle between consecutive ticks with identical near-threshold current. -/
theorem batteryStatus_hysteresis_stable (previousState : Option String)
    (netCurrent : ℚ) (h : |netCurrent| = 0.3) :
    batteryStatus (some (batteryStatus previousState netCurrent)) netCurrent =
      batteryStatus previousState netCurrent := by
  have hc : netCurrent = 0.3 ∨ netCurrent = -0.3 := (abs_eq (by norm_num)).mp h
  have h1 : ¬ netCurrent > 0.3 := by rcases hc with h' | h' <;> rw [h'] <;> norm_num
  have h2 : ¬ netCurrent < -0.3 := by rcases hc with h' | h' <;> rw [h'] <;> norm_num
  have h3 : ¬ netCurrent > 1 := by rcases hc with h' | h' <;> rw [h'] <;> norm_num
  have h4 : ¬ netCurrent < -1 := by rcases hc with h' | h' <;> rw [h'] <;> norm_num
  have hone : batteryStatus previousState netCurrent = "idle" := by
    unfold batteryStatus
    split_ifs <;> rfl
  rw [hone]
  unfold batteryStatus
  split_ifs <;> rfl

/-- C5 witness: at previous status charging and net current exactly 0.3
(the exit threshold), the double step agrees with the single step. -/
theorem batteryStatus_hysteresis_stable_witness :
    |(0.3 : ℚ)| = 0.3 ∧
    batteryStatus (some (batteryStatus (some "charging") 0.3)) 0.3 =
      batteryStatus (some "charging") 0.3 :=
  ⟨by norm_num, batteryStatus_hysteresis_stable (some "charging") 0.3 (by norm_num)⟩

/-- C4: the lithium/LiFePO4 charge-stage machine of the chemistry-aware DC-DC
MPPT charger: for an otherwise-active charger (positive pre-stage current, no
overvoltage fault, current within the power limit), SOC below 95 gives stage
bulk (CC) at the full allowed current, SOC in [95,100) gives stage
absorption (CV) with the current scaled by (100-SOC)/5, and SOC at or above
100 gives stage full - stopped with the output current forced to 0 in the
same tick (no float stage). -/
theorem dcdc_lithium_stage_behavior (spec : ComponentSpec)
    (altV solarV solarP battV soc battCap starterV ambT : ℚ) (chem : String)
    (hchem : chem = "lithium" ∨ chem = "lifepo4")
    (hnofault : altV ≤ jsOr spec.maxInputVoltage 30)
    (hpre : 0 < dcdcPre spec altV solarV solarP battV starterV battCap chem)
    (hplm0 : 0 ≤ dcdcPowerLimitedMax spec battV battCap chem)
    (hplm : dcdcPre spec altV solarV solarP battV starterV battCap chem ≤
      dcdcPowerLimitedMax spec battV battCap chem) :
    (soc < 95 →
      (calculateDCDCMPPTStateWithChemistry spec altV solarV solarP battV soc battCap chem starterV ambT).chargeStage = some "bulk (CC)" ∧
      (calculateDCDCMPPTStateWithChemistry spec altV solarV solarP battV soc battCap chem starterV ambT).current =
        dcdcPre spec altV solarV solarP battV starterV battCap chem) ∧
    (95 ≤ soc → soc < 100 →
      (calculateDCDCMPPTStateWithChemistry spec altV solarV solarP battV soc battCap chem starterV ambT).chargeStage = some "absorption (CV)" ∧
      (calculateDCDCMPPTStateWithChemistry spec altV solarV solarP battV soc battCap chem starterV ambT).current =
        dcdcPre spec altV solarV solarP battV starterV battCap chem * ((100 - soc) / 5)) ∧
    (100 ≤ soc →
      (calculateDCDCMPPTStateWithChemistry spec altV solarV solarP battV soc battCap chem starterV ambT).chargeStage = some "full - stopped" ∧
      (calculateDCDCMPPTStateWithChemistry spec altV solarV solarP battV soc battCap chem starterV ambT).current = 0) := by
  have hfault : ¬ (altV > jsOr spec.maxInputVoltage 30) := not_lt.mpr hnofault
  unfold calculateDCDCMPPTStateWithChemistry
  dsimp only []
  simp only [if_neg hfault]
  unfold dcdcStage
  dsimp only []
  rw [if_pos hpre, if_pos hchem]
  refine ⟨?_, ?_, ?_⟩
  · intro hsoc
    rw [if_pos hsoc]
    exact ⟨rfl, min_eq_left hplm⟩
  · intro hsoc1 hsoc2
    rw [if_neg (not_lt.mpr hsoc1), if_pos hsoc2]
    refine ⟨rfl, min_eq_left ?_⟩
    have hscale1 : (100 - soc) / 5 ≤ 1 := by linarith
    calc dcdcPre spec altV solarV solarP battV starterV battCap chem * ((100 - soc) / 5)
        ≤ dcdcPre spec altV solarV solarP battV starterV battCap chem * 1 := by
          exact mul_le_mul_of_nonneg_left hscale1 (le_of_lt hpre)
      _ = dcdcPre spec altV solarV solarP battV starterV battCap chem := mul_one _
      _ ≤ dcdcPowerLimitedMax spec battV battCap chem := hplm
  · intro hsoc
    rw [if_neg (not_lt.mpr (by linarith : (95:ℚ) ≤ soc)), if_neg (not_lt.mpr hsoc)]
    exact ⟨rfl, min_eq_left hplm0⟩

/-- C4 witness: a LiFePO4 battery at SOC 100 behind a default charger with a
valid 18 V / 100 W solar input (so the pre-stage current is positive) gets
stage full - stopped and output current 0. -/
theorem dcdc_lithium_stage_behavior_witness :
    ((0:ℚ) < dcdcPre specC4 0 18 100 13.6 0 100 "lifepo4") ∧
    (calculateDCDCMPPTStateWithChemistry specC4 0 18 100 13.6 100 100 "lifepo4" 0 25).chargeStage =
      some "full - stopped" ∧
    (calculateDCDCMPPTStateWithChemistry specC4 0 18 100 13.6 100 100 "lifepo4" 0 25).current = 0 := by
  have hpre : (0:ℚ) < dcdcPre specC4 0 18 100 13.6 0 100 "lifepo4" :=
    of_decide_eq_true (by with_unfolding_all rfl)
  have hplm0 : (0:ℚ) ≤ dcdcPowerLimitedMax specC4 13.6 100 "lifepo4" :=
    of_decide_eq_true (by with_unfolding_all rfl)
  have hplm : dcdcPre specC4 0 18 100 13.6 0 100 "lifepo4" ≤
      dcdcPowerLimitedMax specC4 13.6 100 "lifepo4" :=
    of_decide_eq_true (by with_unfolding_all rfl)
  have h := dcdc_lithium_stage_behavior specC4 0 18 100 13.6 100 100 0 25 "lifepo4"
    (Or.inr rfl) (of_decide_eq_true (by with_unfolding_all rfl)) hpre hplm0 hplm
  exact ⟨hpre, h.2.2 le_rfl⟩

/-- Invariant of the tracer loop body: assuming the recursive traversal
satisfies the invariant, so does the loop over the direct connections. -/
theorem traceLoopWith_inv (nodes : List SimNode)
    (recurse : String → List String → List SimNode × List String)
    (hrec : ∀ s v, traceInv v (recurse s v)) :
    ∀ (conns : List String) (visited : List String),
      traceInv visited (traceLoopWith nodes recurse conns visited) := by
  intro conns
  induction conns with
  | nil =>
    intro visited
    exact ⟨fun x h => h, fun n h => absurd h (List.not_mem_nil n), List.nodup_nil⟩
  | cons c cs ih =>
    intro visited
    simp only [traceLoopWith]
    split
    · exact ih visited
    · split
      · exact ih visited
      case h_2 cn hfind =>
        have hcn : cn.id = c := by
          have := List.find?_some hfind
          simpa using this
        split
        case isTrue hpass =>
          obtain ⟨hp1, hp2, hp3⟩ := hrec c visited
          obtain ⟨hq1, hq2, hq3⟩ := ih (recurse c visited).2
          refine ⟨fun x hx => hq1 x (hp1 x hx), ?_, ?_⟩
          · intro n hn
            rcases List.mem_append.mp hn with h1 | h2
            · obtain ⟨ha, hb, hc⟩ := hp2 n h1
              exact ⟨hq1 _ ha, hb, hc⟩
            · obtain ⟨ha, hb, hc⟩ := hq2 n h2
              exact ⟨ha, fun hmem => hb (hp1 _ hmem), hc⟩
          · rw [List.map_append]
            refine List.Nodup.append hp3 hq3 ?_
            intro a ha1 ha2
            obtain ⟨n, hn, hna⟩ := List.mem_map.mp ha1
            obtain ⟨m, hm, hma⟩ := List.mem_map.mp ha2
            have hnp := (hp2 n hn).1
            have hmq := (hq2 m hm).2.1
            rw [hna] at hnp
            rw [hma] at hmq
            exact hmq hnp
        case isFalse hpass =>
          rename_i hcmem _
          obtain ⟨hq1, hq2, hq3⟩ := ih (c :: visited)
          refine ⟨fun x hx => hq1 x (List.mem_cons_of_mem _ hx), ?_, ?_⟩
          · intro n hn
            rcases List.mem_cons.mp hn with h1 | h2
            · subst h1
              refine ⟨?_, ?_, ?_⟩
              · exact hcn ▸ hq1 c (List.mem_cons_self c visited)
              · rw [hcn]; exact hcmem
              · exact Bool.not_eq_true _ ▸ Bool.of_not_eq_true hpass
            · obtain ⟨ha, hb, hc⟩ := hq2 n h2
              exact ⟨ha, fun hmem => hb (List.mem_cons_of_mem _ hmem), hc⟩
          · rw [List.map_cons]
            refine List.nodup_cons.mpr ⟨?_, hq3⟩
            intro hmem
            obtain ⟨m, hm, hma⟩ := List.mem_map.mp hmem
            have := (hq2 m hm).2.1
            rw [hma, hcn] at this
            exact this (List.mem_cons_self c visited)

/-- Invariant of the fueled traversal, for every fuel. -/
theorem traceAllFuel_inv (nodes : List SimNode) (edges : List SimEdge) :
    ∀ (fuel : ℕ) (startId : String) (visited : List String),
      traceInv visited (traceAllFuel nodes edges fuel startId visited) := by
  intro fuel
  induction fuel with
  | zero =>
    intro s v
    exact ⟨fun x h => h, fun n h => absurd h (List.not_mem_nil n), List.nodup_nil⟩
  | succ f ih =>
    intro s v
    simp only [traceAllFuel]
    split
    · exact ⟨fun x h => h, fun n h => absurd h (List.not_mem_nil n), List.nodup_nil⟩
    case isFalse hmem =>
      obtain ⟨h1, h2, h3⟩ := traceLoopWith_inv nodes (traceAllFuel nodes edges f)
        (fun s' v' => ih s' v') (getDirectConnections edges s) (s :: v)
      refine ⟨fun x hx => h1 x (List.mem_cons_of_mem _ hx), ?_, h3⟩
      intro n hn
      obtain ⟨ha, hb, hc⟩ := h2 n hn
      exact ⟨ha, fun hx => hb (List.mem_cons_of_mem _ hx), hc⟩

/-- Every node appears at most once in a trace result. -/
theorem traceAllConnections_nodup (nodes : List SimNode) (edges : List SimEdge)
    (startId : String) :
    ((traceAllConnections nodes edges startId).map SimNode.id).Nodup :=
  (traceAllFuel_inv nodes edges _ startId []).2.2

/-- No pass-through node is ever returned by the tracer. -/
theorem traceAllConnections_no_passthru (nodes : List SimNode) (edges : List SimEdge)
    (startId : String) :
    ∀ n ∈ traceAllConnections nodes edges startId, ¬ passthruCat n.spec.category := by
  intro n hn
  have h := ((traceAllFuel_inv nodes edges _ startId []).2.1 n hn).2.2
  intro hc
  rcases hc with h' | h' | h' | h' <;> simp [isPassthru, h'] at h

/-- A fold of per-battery generation credits leaves keys of other batteries
untouched. -/
theorem foldl_credit_preserve (q : ℚ) (k : String) :
    ∀ (l : List SimNode) (cs : String → Option Circuit),
      (∀ x ∈ l, x.id ≠ k) →
      (l.foldl (fun cs2 b =>
        match cs2 b.id with
        | some c => updateFn cs2 b.id { c with generation := c.generation + q }
        | none => cs2) cs) k = cs k := by
  intro l
  induction l with
  | nil => intro cs _; rfl
  | cons x xs ih =>
    intro cs h
    simp only [List.foldl_cons]
    rw [ih _ (fun y hy => h y (List.mem_cons_of_mem _ hy))]
    cases hx : cs x.id with
    | none => simp [hx]
    | some c =>
      simp only [hx, updateFn]
      rw [if_neg (fun hh => h x (List.mem_cons_self x xs) hh.symm)]

/-- A fold of per-battery generation credits adds exactly one credit q to
every listed battery, when the listed ids are pairwise distinct. -/
theorem foldl_credit_get (q : ℚ) :
    ∀ (l : List SimNode) (cs : String → Option Circuit) (b : SimNode) (c : Circuit),
      (l.map SimNode.id).Nodup → b ∈ l → cs b.id = some c →
      (l.foldl (fun cs2 x =>
        match cs2 x.id with
        | some cx => updateFn cs2 x.id { cx with generation := cx.generation + q }
        | none => cs2) cs) b.id = some { c with generation := c.generation + q } := by
  intro l
  induction l with
  | nil => intro cs b c _ hb; exact absurd hb (List.not_mem_nil b)
  | cons x xs ih =>
    intro cs b c hnd hb hcs
    have hnd' : (∀ y ∈ xs, ¬ y.id = x.id) ∧ (List.map SimNode.id xs).Nodup := by
      simpa using hnd
    simp only [List.foldl_cons]
    rcases List.mem_cons.mp hb with hbx | hbxs
    · subst hbx
      rw [foldl_credit_preserve q b.id xs _ (fun y hy => hnd'.1 y hy)]
      simp [hcs, updateFn]
    · have hbne : b.id ≠ x.id := fun hh => hnd'.1 b hbxs hh
      have hstep : (match cs x.id with
          | some cx => updateFn cs x.id { cx with generation := cx.generation + q }
          | none => cs) b.id = some c := by
        cases hx : cs x.id with
        | none => simpa using hcs
        | some cx => simpa [updateFn, if_neg hbne] using hcs
      exact ih _ b c hnd'.2 hbxs hstep

/-- Filtering the trace by type keeps the ids pairwise distinct. -/
theorem findConnectedByType_nodup (nodes : List SimNode) (edges : List SimEdge)
    (nodeId : String) (types : List String) :
    ((findConnectedByType nodes edges nodeId types).map SimNode.id).Nodup := by
  unfold findConnectedByType
  exact (traceAllConnections_nodup nodes edges nodeId).sublist
    ((List.filter_sublist _).map SimNode.id)

/-- The alternator branch of the first pass: total generation grows by the
alternator power exactly when the engine runs and a battery is traced, and in
that case the circuits map is the even-split credit fold. -/
theorem pass1Step_alternator (nodes : List SimNode) (edges : List SimEdge)
    (environment : EnvironmentState) (previousState : Option SystemSimulation)
    (acc : SimAccum) (node : SimNode)
    (hcat : node.spec.category = "power-source") (htype : node.spec.type = "alternator") :
    (pass1Step nodes edges environment previousState acc node).totalGeneration =
      acc.totalGeneration +
        (if environment.engineRunning ∧ isConnectedToBattery nodes edges node.id then
          (calculateAlternatorOutput node.spec environment.alternatorRPM).power else 0) ∧
    (pass1Step nodes edges environment previousState acc node).circuits =
      (if environment.engineRunning ∧ isConnectedToBattery nodes edges node.id then
        creditAlternator (calculateAlternatorOutput node.spec environment.alternatorRPM).power
          (findConnectedByType nodes edges node.id batteryTypes) acc.circuits
      else acc.circuits) := by
  unfold pass1Step
  rw [if_neg (by rw [hcat]; exact fun h => h rfl)]
  rw [if_neg (by rw [htype]; decide), if_neg (by rw [htype]; exact fun h => by simp at h),
    if_neg (by rw [htype]; exact fun h => by simp at h), if_pos htype]
  dsimp only []
  split
  · exact ⟨rfl, rfl⟩
  · simp

/-- C6: alternator behavior.  Output is zero below 800 RPM; at or above
800 RPM the voltage is fixed at 14.4 V and the current is the rated current
scaled by min 1 ((rpm-800)/1200), so a 100 A alternator at 1400 RPM gives
50 A.  In the first pass, alternator power is added to total generation
exactly when the engine-running flag is set and the alternator traces to at
least one battery, and it is then split evenly over all traced batteries'
circuit accumulators. -/
theorem alternator_output_and_generation :
    (∀ (spec : ComponentSpec) (rpm : ℚ), rpm < 800 →
      calculateAlternatorOutput spec rpm = ⟨0, 0, 0⟩) ∧
    (∀ (spec : ComponentSpec) (rpm : ℚ), ¬ rpm < 800 →
      (calculateAlternatorOutput spec rpm).voltage = 14.4 ∧
      (calculateAlternatorOutput spec rpm).current =
        jsOr spec.maxCurrent 100 * min 1 ((rpm - 800) / 1200)) ∧
    ((calculateAlternatorOutput
      { type := "alternator", category := "power-source", maxCurrent := some 100 } 1400).current = 50) ∧
    (∀ (nodes : List SimNode) (edges : List SimEdge) (environment : EnvironmentState)
      (previousState : Option SystemSimulation) (acc : SimAccum) (node : SimNode),
      node.spec.category = "power-source" → node.spec.type = "alternator" →
      (pass1Step nodes edges environment previousState acc node).totalGeneration =
        acc.totalGeneration +
          (if environment.engineRunning ∧ isConnectedToBattery nodes edges node.id then
            (calculateAlternatorOutput node.spec environment.alternatorRPM).power else 0)) ∧
    (∀ (nodes : List SimNode) (edges : List SimEdge) (environment : EnvironmentState)
      (previousState : Option SystemSimulation) (acc : SimAccum) (node : SimNode),
      node.spec.category = "power-source" → node.spec.type = "alternator" →
      environment.engineRunning = true → isConnectedToBattery nodes edges node.id = true →
      ∀ b ∈ findConnectedByType nodes edges node.id batteryTypes,
        ∀ c : Circuit, acc.circuits b.id = some c →
        (pass1Step nodes edges environment previousState acc node).circuits b.id =
          some { c with generation := c.generation +
            (calculateAlternatorOutput node.spec environment.alternatorRPM).power /
              ((findConnectedByType nodes edges node.id batteryTypes).length : ℚ) }) := by
  refine ⟨?_, ?_, ?_, ?_, ?_⟩
  · intro spec rpm h
    unfold calculateAlternatorOutput
    rw [if_pos h]
  · intro spec rpm h
    unfold calculateAlternatorOutput
    rw [if_neg h]
    exact ⟨rfl, rfl⟩
  · exact of_decide_eq_true (by with_unfolding_all rfl)
  · intro nodes edges environment previousState acc node hcat htype
    exact (pass1Step_alternator nodes edges environment previousState acc node hcat htype).1
  · intro nodes edges environment previousState acc node hcat htype heng hconn b hb c hc
    rw [(pass1Step_alternator nodes edges environment previousState acc node hcat htype).2]
    rw [if_pos ⟨heng, by rw [hconn]⟩]
    unfold creditAlternator
    exact foldl_credit_get _ _ _ _ _ (findConnectedByType_nodup nodes edges node.id batteryTypes) hb hc

/-- C6 witness: a 100 A alternator at 500 RPM gives zero output, at 1400 RPM
gives 50 A, and when wired to one battery with the engine running the first
pass credits the full power to that battery's circuit. -/
theorem alternator_output_and_generation_witness :
    calculateAlternatorOutput altC6.spec 500 = ⟨0, 0, 0⟩ ∧
    (calculateAlternatorOutput
      { type := "alternator", category := "power-source", maxCurrent := some 100 } 1400).current = 50 ∧
    (pass1Step [altC6, battC6] [⟨"e1", "alt", "batt"⟩] envC6 none accC6 altC6).totalGeneration =
      accC6.totalGeneration +
        (if envC6.engineRunning ∧ isConnectedToBattery [altC6, battC6] [⟨"e1", "alt", "batt"⟩] altC6.id then
          (calculateAlternatorOutput altC6.spec envC6.alternatorRPM).power else 0) ∧
    (pass1Step [altC6, battC6] [⟨"e1", "alt", "batt"⟩] envC6 none accC6 altC6).circuits battC6.id =
      some { (⟨0, 0⟩ : Circuit) with generation := (0:ℚ) +
        (calculateAlternatorOutput altC6.spec envC6.alternatorRPM).power /
          ((findConnectedByType [altC6, battC6] [⟨"e1", "alt", "batt"⟩] altC6.id batteryTypes).length : ℚ) } := by
  have h := alternator_output_and_generation
  refine ⟨h.1 altC6.spec 500 (by norm_num), h.2.2.1, ?_, ?_⟩
  · exact h.2.2.2.1 [altC6, battC6] [⟨"e1", "alt", "batt"⟩] envC6 none accC6 altC6 rfl rfl
  · exact h.2.2.2.2 [altC6, battC6] [⟨"e1", "alt", "batt"⟩] envC6 none accC6 altC6 rfl rfl rfl
      (by decide) battC6 (by decide) ⟨0, 0⟩ (by decide)

/-- A node with no incident edges has no direct connections. -/
theorem getDirectConnections_isolated (edges : List SimEdge) (s : String)
    (h : ∀ e ∈ edges, e.source ≠ s ∧ e.target ≠ s) :
    getDirectConnections edges s = [] := by
  unfold getDirectConnections
  have aux : ∀ (l : List SimEdge), (∀ e ∈ l, e.source ≠ s ∧ e.target ≠ s) →
      ∀ acc : List String, l.foldl (fun acc e =>
        let acc := if e.source = s then acc ++ [e.target] else acc
        if e.target = s then acc ++ [e.source] else acc) acc = acc := by
    intro l
    induction l with
    | nil => intro _ acc; rfl
    | cons e es ih =>
      intro hl acc
      simp only [List.foldl_cons]
      rw [if_neg (hl e (List.mem_cons_self e es)).1, if_neg (hl e (List.mem_cons_self e es)).2]
      exact ih (fun x hx => hl x (List.mem_cons_of_mem _ hx)) acc
  exact aux edges h []

/-- Tracing from an isolated node yields the empty list. -/
theorem traceAllConnections_isolated (nodes : List SimNode) (edges : List SimEdge)
    (s : String) (h : ∀ e ∈ edges, e.source ≠ s ∧ e.target ≠ s) :
    traceAllConnections nodes edges s = [] := by
  have aux : ∀ fuel, (traceAllFuel nodes edges fuel s []).1 = [] := by
    intro fuel
    cases fuel with
    | zero => rfl
    | succ f =>
      simp only [traceAllFuel]
      rw [if_neg (List.not_mem_nil s), getDirectConnections_isolated edges s h]
      rfl
  exact aux _

/-- C2: tracer correctness.  On the chain battery—fuse—bus—load the trace
from the battery returns exactly the load (the pass-through fuse and bus are
traversed but never returned); tracing from a node with no incident edges
returns the empty list; in general every returned node appears at most once
and no returned node has a pass-through category. -/
theorem traceAllConnections_correct :
    traceAllConnections chainNodes chainEdges "bat" = [chainLoad] ∧
    (∀ (nodes : List SimNode) (edges : List SimEdge) (s : String),
      (∀ e ∈ edges, e.source ≠ s ∧ e.target ≠ s) →
      traceAllConnections nodes edges s = []) ∧
    (∀ (nodes : List SimNode) (edges : List SimEdge) (s : String),
      ((traceAllConnections nodes edges s).map SimNode.id).Nodup) ∧
    (∀ (nodes : List SimNode) (edges : List SimEdge) (s : String),
      ∀ n ∈ traceAllConnections nodes edges s, ¬ passthruCat n.spec.category) := by
  refine ⟨by decide, traceAllConnections_isolated, traceAllConnections_nodup,
    traceAllConnections_no_passthru⟩

/-- C2 witness: the concrete chain trace, and the empty trace of the battery
once all wires are removed. -/
theorem traceAllConnections_correct_witness :
    traceAllConnections chainNodes chainEdges "bat" = [chainLoad] ∧
    traceAllConnections chainNodes [] "bat" = [] := by
  refine ⟨traceAllConnections_correct.1, ?_⟩
  exact traceAllConnections_correct.2.1 chainNodes [] "bat"
    (fun e he => absurd he (List.not_mem_nil e))

/-- The protection branch of the third pass: the stored state and the warning
list, as functions of the load/charging current sums, the rating and the
manual-blown flag. -/
theorem pass3Step_protection (nodes : List SimNode) (edges : List SimEdge)
    (acc : SimAccum) (node : SimNode) (hcat : node.spec.category = "protection") :
    (pass3Step nodes edges acc node).nodeStates node.id =
      some { voltage := if (if node.customValues.isBlown = some true then "off"
                else if max (protectionLoadSum nodes edges acc.nodeStates node.id)
                  (protectionChargeSum nodes edges acc.nodeStates node.id) > protectionRating node
                then "fault" else "on") = "off" then 0 else acc.systemVoltage,
             current := if (if node.customValues.isBlown = some true then "off"
                else if max (protectionLoadSum nodes edges acc.nodeStates node.id)
                  (protectionChargeSum nodes edges acc.nodeStates node.id) > protectionRating node
                then "fault" else "on") = "off" then 0
              else max (protectionLoadSum nodes edges acc.nodeStates node.id)
                (protectionChargeSum nodes edges acc.nodeStates node.id),
             power := if (if node.customValues.isBlown = some true then "off"
                else if max (protectionLoadSum nodes edges acc.nodeStates node.id)
                  (protectionChargeSum nodes edges acc.nodeStates node.id) > protectionRating node
                then "fault" else "on") = "off" then 0
              else max (protectionLoadSum nodes edges acc.nodeStates node.id)
                (protectionChargeSum nodes edges acc.nodeStates node.id) * acc.systemVoltage,
             state := if node.customValues.isBlown = some true then "off"
                else if max (protectionLoadSum nodes edges acc.nodeStates node.id)
                  (protectionChargeSum nodes edges acc.nodeStates node.id) > protectionRating node
                then "fault" else "on" } ∧
    (pass3Step nodes edges acc node).warnings =
      (if max (protectionLoadSum nodes edges acc.nodeStates node.id)
          (protectionChargeSum nodes edges acc.nodeStates node.id) > protectionRating node ∧
          ¬ node.customValues.isBlown = some true then
        acc.warnings ++ [node.label ++ " is over-rated: " ++
          toFixedQ 1 (max (protectionLoadSum nodes edges acc.nodeStates node.id)
            (protectionChargeSum nodes edges acc.nodeStates node.id)) ++
          "A through " ++ qToStr (protectionRating node) ++ "A fuse!"]
      else acc.warnings) := by
  unfold pass3Step
  rw [if_neg (by rw [hcat]; rintro (h | h) <;> simp at h),
    if_neg (by rw [hcat]; decide), if_pos hcat]
  dsimp only []
  constructor
  · split <;> simp [updateFn]
  · split <;> rfl

/-- C8: protection devices.  For every protection node the reported current is
max(traced active load current, traced active charger output current) — not
their sum — its status is fault when that current exceeds the rating and the
device is not manually blown (with a warning carrying both the measured
current and the rating), off when manually blown, and on otherwise.  In the
concrete scenario a 15 A fuse carrying 20 A of load current (with 5 A of
charging current, so the sum 25 A is not reported) goes to fault and appends
the warning with both numbers. -/
theorem protection_current_status_warning :
    (∀ (nodes : List SimNode) (edges : List SimEdge) (acc : SimAccum) (node : SimNode),
      node.spec.category = "protection" →
      ¬ node.customValues.isBlown = some true →
      ((pass3Step nodes edges acc node).nodeStates node.id).map (fun st => st.current) =
        some (max (protectionLoadSum nodes edges acc.nodeStates node.id)
          (protectionChargeSum nodes edges acc.nodeStates node.id)) ∧
      (max (protectionLoadSum nodes edges acc.nodeStates node.id)
          (protectionChargeSum nodes edges acc.nodeStates node.id) > protectionRating node →
        ((pass3Step nodes edges acc node).nodeStates node.id).map (fun st => st.state) =
          some "fault" ∧
        (pass3Step nodes edges acc node).warnings = acc.warnings ++
          [node.label ++ " is over-rated: " ++
            toFixedQ 1 (max (protectionLoadSum nodes edges acc.nodeStates node.id)
              (protectionChargeSum nodes edges acc.nodeStates node.id)) ++
            "A through " ++ qToStr (protectionRating node) ++ "A fuse!"]) ∧
      (¬ max (protectionLoadSum nodes edges acc.nodeStates node.id)
          (protectionChargeSum nodes edges acc.nodeStates node.id) > protectionRating node →
        ((pass3Step nodes edges acc node).nodeStates node.id).map (fun st => st.state) =
          some "on")) ∧
    (∀ (nodes : List SimNode) (edges : List SimEdge) (acc : SimAccum) (node : SimNode),
      node.spec.category = "protection" →
      node.customValues.isBlown = some true →
      ((pass3Step nodes edges acc node).nodeStates node.id).map (fun st => st.state) =
        some "off") ∧
    (protectionLoadSum nodesC8 edgesC8 accC8.nodeStates "f" = 20 ∧
     protectionChargeSum nodesC8 edgesC8 accC8.nodeStates "f" = 5 ∧
     ((pass3Step nodesC8 edgesC8 accC8 fuseC8).nodeStates "f").map (fun st => st.current) =
       some 20 ∧
     ((pass3Step nodesC8 edgesC8 accC8 fuseC8).nodeStates "f").map (fun st => st.current) ≠
       some (protectionLoadSum nodesC8 edgesC8 accC8.nodeStates "f" +
         protectionChargeSum nodesC8 edgesC8 accC8.nodeStates "f") ∧
     ((pass3Step nodesC8 edgesC8 accC8 fuseC8).nodeStates "f").map (fun st => st.state) =
       some "fault" ∧
     (pass3Step nodesC8 edgesC8 accC8 fuseC8).warnings =
       ["Main Fuse is over-rated: 20.0A through 15A fuse!"]) := by
  refine ⟨?_, ?_, ?_⟩
  · intro nodes edges acc node hcat hnb
    obtain ⟨hst, hw⟩ := pass3Step_protection nodes edges acc node hcat
    refine ⟨?_, ?_, ?_⟩
    · rw [hst]
      simp only [Option.map_some']
      simp only [if_neg hnb]
      split <;> rfl
    · intro hover
      refine ⟨?_, ?_⟩
      · rw [hst]
        simp only [Option.map_some']
        rw [if_neg hnb, if_pos hover]
      · rw [hw, if_pos (And.intro hover hnb)]
    · intro hover
      rw [hst]
      simp only [Option.map_some']
      rw [if_neg hnb, if_neg hover]
  · intro nodes edges acc node hcat hb
    obtain ⟨hst, _⟩ := pass3Step_protection nodes edges acc node hcat
    rw [hst]
    simp only [Option.map_some']
    rw [if_pos hb]
  · exact of_decide_eq_true (by with_unfolding_all rfl)

/-- C8 witness: applying the protection characterization to the concrete
15 A fuse with 20 A of traced load current yields the fault status and the
over-rated warning with both numbers. -/
theorem protection_current_status_warning_witness :
    ((pass3Step nodesC8 edgesC8 accC8 fuseC8).nodeStates "f").map (fun st => st.state) =
      some "fault" ∧
    (pass3Step nodesC8 edgesC8 accC8 fuseC8).warnings =
      ["Main Fuse is over-rated: 20.0A through 15A fuse!"] := by
  have h := (protection_current_status_warning.1 nodesC8 edgesC8 accC8 fuseC8 rfl
    (by decide)).2.1 (of_decide_eq_true (by with_unfolding_all rfl))
  refine ⟨h.1, h.2.trans ?_⟩
  exact of_decide_eq_true (by with_unfolding_all rfl)

/-- With zero net current the clamped SOC equals the previous SOC whenever it
was already in [0,100]. -/
theorem calculateBatteryState_soc_zero (spec : ComponentSpec)
    (soc deltaTime : ℚ) (prev : Option String)
    (h0 : 0 ≤ soc) (h1 : soc ≤ 100) :
    (calculateBatteryState spec 0 soc deltaTime prev).stateOfCharge = soc := by
  unfold calculateBatteryState
  dsimp only []
  rw [zero_mul, zero_div, zero_div, zero_mul, add_zero, min_eq_right h1, max_eq_right h0]

/-- The fourth pass on a battery with no incident edges: net current is
forced to 0, so the reported current and power are 0, the status is idle and
the SOC is carried over unchanged. -/
theorem pass4Step_disconnected (edges : List SimEdge)
    (previousState : Option SystemSimulation) (deltaTime : ℚ)
    (acc : SimAccum) (node : SimNode)
    (hbatt : isBatteryType node.spec.type = true)
    (hconn : isNodeConnected edges node.id = false)
    (hsoc0 : 0 ≤ (match prevLookup previousState node.id with
      | some st => st.stateOfCharge.getD 80 | none => (80:ℚ)))
    (hsoc1 : (match prevLookup previousState node.id with
      | some st => st.stateOfCharge.getD 80 | none => (80:ℚ)) ≤ 100) :
    ((pass4Step edges previousState deltaTime acc node).nodeStates node.id).map
      (fun st => (st.current, st.power, st.state, st.stateOfCharge)) =
      some (0, 0, "idle",
        some (match prevLookup previousState node.id with
          | some st => st.stateOfCharge.getD 80 | none => (80:ℚ))) := by
  unfold pass4Step
  rw [if_pos hbatt]
  dsimp only []
  generalize hg : (match prevLookup previousState node.id with
    | some st => st.stateOfCharge.getD 80 | none => (80:ℚ)) = soc0 at hsoc0 hsoc1 ⊢
  cases hcirc : acc.circuits node.id with
  | none =>
    simp only [hconn, Bool.false_eq_true, if_false, updateFn]
    repeat' split
    all_goals
      simp only [updateFn, if_pos rfl, if_true, Option.map_some']
      rw [calculateBatteryState_soc_zero _ _ _ _ hsoc0 hsoc1]
  | some c =>
    simp only [hconn, Bool.false_eq_true, if_false, updateFn]
    repeat' split
    all_goals
      simp only [updateFn, if_pos rfl, if_true, Option.map_some']
      rw [calculateBatteryState_soc_zero _ _ _ _ hsoc0 hsoc1]

/-- C9: a battery with no edges at all has its net current forced to 0 for
the tick: in general the fourth pass reports current 0, power 0, status idle
and an unchanged SOC; concretely, a 100 Ah lead-acid battery at SOC 57 with
no connections run through the full simulation at deltaTime 3600 s keeps
SOC 57 with current and power 0. -/
theorem disconnected_battery_frame :
    (∀ (edges : List SimEdge) (previousState : Option SystemSimulation)
      (deltaTime : ℚ) (acc : SimAccum) (node : SimNode),
      isBatteryType node.spec.type = true →
      isNodeConnected edges node.id = false →
      0 ≤ (match prevLookup previousState node.id with
        | some st => st.stateOfCharge.getD 80 | none => (80:ℚ)) →
      (match prevLookup previousState node.id with
        | some st => st.stateOfCharge.getD 80 | none => (80:ℚ)) ≤ 100 →
      ((pass4Step edges previousState deltaTime acc node).nodeStates node.id).map
        (fun st => (st.current, st.power, st.state, st.stateOfCharge)) =
        some (0, 0, "idle",
          some (match prevLookup previousState node.id with
            | some st => st.stateOfCharge.getD 80 | none => (80:ℚ)))) ∧
    (runSimulation [battC9] [] envC9 (some prevC9) 3600).nodes "b" =
      some { voltage := 12.655, current := 0, power := 0, state := "idle",
             stateOfCharge := some 57 } := by
  refine ⟨pass4Step_disconnected, ?_⟩
  have f1 : List.foldl (pass1Step [battC9] [] envC9 (some prevC9)) acc0C9 [battC9] = acc1C9 := by
    with_unfolding_all rfl
  have f2 : List.foldl (pass2Step [battC9] [] envC9) acc1C9 [battC9] = acc1C9 := by
    with_unfolding_all rfl
  have f3 : List.foldl (pass3Step [battC9] []) acc1C9 [battC9] = acc1C9 := by
    with_unfolding_all rfl
  have f4 : List.foldl (pass4Step [] (some prevC9) 3600) acc1C9 [battC9] = acc4C9 := by
    with_unfolding_all rfl
  have hrun : (runSimulation [battC9] [] envC9 (some prevC9) 3600).nodes =
      (diagnostics [battC9] [] envC9 (List.foldl (pass4Step [] (some prevC9) 3600)
        (List.foldl (pass3Step [battC9] []) (List.foldl (pass2Step [battC9] [] envC9)
          (List.foldl (pass1Step [battC9] [] envC9 (some prevC9)) acc0C9 [battC9])
          [battC9]) [battC9]) [battC9])).nodeStates := rfl
  rw [hrun, f1, f2, f3, f4, (diagnostics_sameCore [battC9] [] envC9 acc4C9).1]
  with_unfolding_all rfl

/-- C9 witness: the general disconnected-battery step applied to the concrete
C9 battery and accumulator. -/
theorem disconnected_battery_frame_witness :
    isBatteryType battC9.spec.type = true ∧
    isNodeConnected [] battC9.id = false ∧
    ((pass4Step [] (some prevC9) 3600 acc1C9 battC9).nodeStates "b").map
      (fun st => (st.current, st.power, st.state, st.stateOfCharge)) =
      some (0, 0, "idle", some 57) := by
  refine ⟨rfl, rfl, ?_⟩
  have h := disconnected_battery_frame.1 [] (some prevC9) 3600 acc1C9 battC9 rfl rfl
    (of_decide_eq_true (by with_unfolding_all rfl))
    (of_decide_eq_true (by with_unfolding_all rfl))
  exact h.trans (of_decide_eq_true (by with_unfolding_all rfl))

/-- The fourth pass on a battery whose effective capacity is at least 100
overwrites the running system voltage with that battery's finalized (stored)
voltage. -/
theorem pass4Step_systemVoltage_qualified (edges : List SimEdge)
    (previousState : Option SystemSimulation) (deltaTime : ℚ)
    (acc : SimAccum) (node : SimNode)
    (hbatt : isBatteryType node.spec.type = true)
    (hcap : batteryEffCapacity node ≥ 100) :
    (pass4Step edges previousState deltaTime acc node).systemVoltage =
      (((pass4Step edges previousState deltaTime acc node).nodeStates node.id).getD {}).voltage := by
  unfold pass4Step
  rw [if_pos hbatt]
  dsimp only []
  rw [if_pos (Or.inl hcap)]
  repeat' split
  all_goals simp [updateFn]

/-- Field values of the concrete C7 run: the finalized system voltage and the
finalized per-battery states. -/
theorem c7_run_fields :
    (runSimulation [battA7, battB7] [] envC7 (some prevC7) 1).systemVoltage = 12.85 ∧
    (runSimulation [battA7, battB7] [] envC7 (some prevC7) 1).nodes "a" = some stA7 ∧
    (runSimulation [battA7, battB7] [] envC7 (some prevC7) 1).nodes "b" = some stB7 := by
  have f1 : List.foldl (pass1Step [battA7, battB7] [] envC7 (some prevC7)) acc0C7 [battA7, battB7] = acc1C7 := by
    with_unfolding_all rfl
  have f2 : List.foldl (pass2Step [battA7, battB7] [] envC7) acc1C7 [battA7, battB7] = acc1C7 := by
    with_unfolding_all rfl
  have f3 : List.foldl (pass3Step [battA7, battB7] []) acc1C7 [battA7, battB7] = acc1C7 := by
    with_unfolding_all rfl
  have f4 : List.foldl (pass4Step [] (some prevC7) 1) acc1C7 [battA7, battB7] = acc4C7 := by
    with_unfolding_all rfl
  have hcore := diagnostics_sameCore [battA7, battB7] [] envC7 acc4C7
  have hrunV : (runSimulation [battA7, battB7] [] envC7 (some prevC7) 1).systemVoltage =
      (diagnostics [battA7, battB7] [] envC7 (List.foldl (pass4Step [] (some prevC7) 1)
        (List.foldl (pass3Step [battA7, battB7] []) (List.foldl (pass2Step [battA7, battB7] [] envC7)
          (List.foldl (pass1Step [battA7, battB7] [] envC7 (some prevC7)) acc0C7 [battA7, battB7])
          [battA7, battB7]) [battA7, battB7]) [battA7, battB7])).systemVoltage := rfl
  have hrunN : (runSimulation [battA7, battB7] [] envC7 (some prevC7) 1).nodes =
      (diagnostics [battA7, battB7] [] envC7 (List.foldl (pass4Step [] (some prevC7) 1)
        (List.foldl (pass3Step [battA7, battB7] []) (List.foldl (pass2Step [battA7, battB7] [] envC7)
          (List.foldl (pass1Step [battA7, battB7] [] envC7 (some prevC7)) acc0C7 [battA7, battB7])
          [battA7, battB7]) [battA7, battB7]) [battA7, battB7])).nodeStates := rfl
  refine ⟨?_, ?_, ?_⟩
  · rw [hrunV, f1, f2, f3, f4, hcore.2.1]
    rfl
  · rw [hrunN, f1, f2, f3, f4, hcore.1]
    with_unfolding_all rfl
  · rw [hrunN, f1, f2, f3, f4, hcore.1]
    with_unfolding_all rfl

/-- C7 counterexample: with a 200 Ah battery (finalized voltage 12.55) listed
before a 100 Ah battery (finalized voltage 12.85), the returned systemVoltage
is 12.85 — the second, lower-capacity battery's voltage — not the voltage of
the highest-capacity battery, contradicting the claim. -/
theorem systemVoltage_not_highest_capacity_battery :
    batteryEffCapacity battA7 = 200 ∧ batteryEffCapacity battB7 = 100 ∧
    ((runSimulation [battA7, battB7] [] envC7 (some prevC7) 1).nodes "a").map
      (fun st => st.voltage) = some 12.55 ∧
    (runSimulation [battA7, battB7] [] envC7 (some prevC7) 1).systemVoltage = 12.85 ∧
    ¬ (runSimulation [battA7, battB7] [] envC7 (some prevC7) 1).systemVoltage =
      (((runSimulation [battA7, battB7] [] envC7 (some prevC7) 1).nodes "a").getD {}).voltage := by
  obtain ⟨hv, ha, hb⟩ := c7_run_fields
  refine ⟨rfl, rfl, ?_, hv, ?_⟩
  · rw [ha]
    rfl
  · rw [hv, ha]
    simp only [Option.getD_some]
    norm_num [stA7]

/-- C7 amended: every battery in node order whose effective capacity is at
least 100 (or reached while the running voltage is exactly 12) overwrites the
system voltage with its own finalized voltage, so systemVoltage ends as the
last such battery's voltage; in the concrete two-battery run it is the second
(100 Ah) battery's voltage 12.85. -/
theorem systemVoltage_last_qualifying_battery :
    (∀ (edges : List SimEdge) (previousState : Option SystemSimulation)
      (deltaTime : ℚ) (acc : SimAccum) (node : SimNode),
      isBatteryType node.spec.type = true →
      batteryEffCapacity node ≥ 100 →
      (pass4Step edges previousState deltaTime acc node).systemVoltage =
        (((pass4Step edges previousState deltaTime acc node).nodeStates node.id).getD {}).voltage) ∧
    (runSimulation [battA7, battB7] [] envC7 (some prevC7) 1).systemVoltage = 12.85 ∧
    ((runSimulation [battA7, battB7] [] envC7 (some prevC7) 1).nodes "b").map
      (fun st => st.voltage) = some 12.85 := by
  refine ⟨pass4Step_systemVoltage_qualified, c7_run_fields.1, ?_⟩
  rw [c7_run_fields.2.2]
  rfl

/-- C7 witness: the qualified-battery step property applied to the concrete
100 Ah battery. -/
theorem systemVoltage_last_qualifying_battery_witness :
    isBatteryType battB7.spec.type = true ∧
    batteryEffCapacity battB7 ≥ 100 ∧
    (pass4Step [] (some prevC7) 1 acc1C7 battB7).systemVoltage =
      (((pass4Step [] (some prevC7) 1 acc1C7 battB7).nodeStates "b").getD {}).voltage := by
  refine ⟨rfl, of_decide_eq_true (by with_unfolding_all rfl), ?_⟩
  exact systemVoltage_last_qualifying_battery.1 [] (some prevC7) 1 acc1C7 battB7 rfl
    (of_decide_eq_true (by with_unfolding_all rfl))

/-- C10: every numeric value read through the JS `||` fallback chain treats 0
like absent.  A rating override of 0 falls back to `spec.rating || 15` (so 15
when the spec has none), a wattage override of 0 falls back to
`spec.wattage || 100`, a capacity override of 0 falls back to
`spec.capacity || 100`, and the capacity merged into the battery spec obeys
the same chain — a zero user-entered value never reaches the computation. -/
theorem zero_override_fallback :
    (∀ node : SimNode, node.customValues.rating = some 0 →
      protectionRating node = jsOr node.spec.rating 15) ∧
    (∀ node : SimNode, node.customValues.rating = some 0 → node.spec.rating = none →
      protectionRating node = 15) ∧
    (∀ (spec : ComponentSpec) (cv : CustomValues) (irradiance : ℚ),
      cv.wattage = some 0 →
      (calculateSolarOutput spec irradiance cv).power =
        jsOr spec.wattage 100 * (irradiance / 1000)) ∧
    (∀ (spec : ComponentSpec) (cv : CustomValues) (irradiance : ℚ),
      cv.wattage = some 0 → spec.wattage = none →
      (calculateSolarOutput spec irradiance cv).power = 100 * (irradiance / 1000)) ∧
    (∀ node : SimNode, node.customValues.capacity = some 0 →
      batteryEffCapacity node = jsOr node.spec.capacity 100) ∧
    (∀ node : SimNode, node.customValues.capacity = some 0 → node.spec.capacity = none →
      batteryEffCapacity node = 100) ∧
    (∀ node : SimNode, jsOr (batteryCapacityOverride node) 100 = batteryEffCapacity node) := by
  refine ⟨?_, ?_, ?_, ?_, ?_, ?_, ?_⟩
  · intro node h
    simp [protectionRating, h, jsOr]
  · intro node h1 h2
    simp [protectionRating, h1, h2, jsOr]
  · intro spec cv irradiance h
    simp [calculateSolarOutput, h, jsOr]
  · intro spec cv irradiance h1 h2
    simp [calculateSolarOutput, h1, h2, jsOr]
  · intro node h
    simp [batteryEffCapacity, h, jsOr]
  · intro node h1 h2
    simp [batteryEffCapacity, h1, h2, jsOr]
  · intro node
    unfold batteryCapacityOverride batteryEffCapacity
    cases hc : node.customValues.capacity with
    | none => simp [jsOr]
    | some x =>
      by_cases hx : x = 0
      · simp [jsOr, hx]
      · simp [jsOr, hx]

/-- C10 witness: the fuse with rating override 0 uses 15 A, the solar panel
with wattage override 0 produces the 100 W default at full irradiance, and
the battery with capacity override 0 uses 100 Ah. -/
theorem zero_override_fallback_witness :
    protectionRating fuseC10 = 15 ∧
    (calculateSolarOutput solarSpecC10 1000 { wattage := some 0 }).power = 100 ∧
    batteryEffCapacity battC10 = 100 := by
  refine ⟨zero_override_fallback.2.1 fuseC10 rfl rfl, ?_,
    zero_override_fallback.2.2.2.2.2.1 battC10 rfl rfl⟩
  have h := zero_override_fallback.2.2.2.1 solarSpecC10 { wattage := some 0 } 1000 rfl rfl
  rw [h]
  norm_num
